import Mathlib

/-!
Verification of the state-change detection and notification-dispatch engine
of the docker-monitor repository.  The definitions below are a shallow
embedding of `docker_monitor/core/change_detector.py`,
`core/state_tracker.py`, `core/cooldown_manager.py`,
`core/notification_manager.py` and `core/notification_formatter.py`.

Python dictionaries are modelled as association lists (`List (String × α)`);
Python dict keys are unique, so theorems that need it carry a `Nodup`
hypothesis on the key list.  Statuses and timestamps are strings, as in the
source; Python string truthiness is `s ≠ ""`, and `dict.get(k)` on a missing
key is `Option.none`.  The source's `UnboundLocalError` (the variable
`manual_restart_changes` can be read before assignment in
`ChangeDetector.detect_changes`) is modelled with `Except`.
The `timestamp: datetime.now()` field of each change dict and the
`container_info` payload attached for formatting are omitted: no claim
depends on them.  Wall-clock time for the cooldown manager is an explicit
integer parameter (seconds).
-/

namespace DockerMonitor

/-- Association-list lookup: the model of Python `dict.get(key)`. -/
def alookup {α : Type} : List (String × α) → String → Option α
  | [], _ => none
  | (k', v) :: rest, k => if k = k' then some v else alookup rest k

/-- Association-list update: the model of Python `d[key] = value`
(replace in place if present, append otherwise; keys are unique). -/
def setKey {α : Type} : List (String × α) → String → α → List (String × α)
  | [], k, v => [(k, v)]
  | (k', v') :: rest, k, v =>
    if k = k' then (k, v) :: rest else (k', v') :: setKey rest k v

/-- Association-list deletion: the model of Python `d.pop(key, None)`. -/
def delKey {α : Type} : List (String × α) → String → List (String × α)
  | [], _ => []
  | (k', v') :: rest, k =>
    if k = k' then delKey rest k else (k', v') :: delKey rest k

@[simp] theorem alookup_nil {α : Type} (k : String) :
    alookup ([] : List (String × α)) k = none := rfl

@[simp] theorem alookup_cons {α : Type} (k' k : String) (v : α) (m : List (String × α)) :
    alookup ((k', v) :: m) k = if k = k' then some v else alookup m k := rfl

theorem alookup_isSome_of_mem {α : Type} {m : List (String × α)} {k : String} {v : α}
    (h : (k, v) ∈ m) : (alookup m k).isSome := by
  induction m with
  | nil => cases h
  | cons p rest ih =>
    rcases List.mem_cons.mp h with h' | h'
    · rw [← h']
      simp [alookup]
    · by_cases hk : k = p.1
      · simp [alookup, hk]
      · simpa [alookup, hk] using ih h'

theorem alookup_setKey_self {α : Type} (m : List (String × α)) (k : String) (v : α) :
    alookup (setKey m k v) k = some v := by
  induction m with
  | nil => simp [setKey, alookup]
  | cons p rest ih =>
    by_cases hk : k = p.1
    · simp [setKey, alookup, hk]
    · simpa [setKey, alookup, hk] using ih

theorem alookup_setKey_of_ne {α : Type} (m : List (String × α)) {k' k : String} (v : α)
    (h : k' ≠ k) : alookup (setKey m k v) k' = alookup m k' := by
  induction m with
  | nil => simp [setKey, alookup, h]
  | cons p rest ih =>
    by_cases hk : k = p.1
    · subst hk
      simp [setKey, alookup, h]
    · by_cases hk' : k' = p.1
      · simp [setKey, alookup, hk, hk']
      · simpa [setKey, alookup, hk, hk'] using ih

theorem alookup_delKey_of_ne {α : Type} (m : List (String × α)) {k' k : String}
    (h : k' ≠ k) : alookup (delKey m k) k' = alookup m k' := by
  induction m with
  | nil => simp [delKey]
  | cons p rest ih =>
    by_cases hk : k = p.1
    · subst hk
      simp [delKey, alookup, h, ih]
    · by_cases hk' : k' = p.1
      · simp [delKey, alookup, hk, hk']
      · simpa [delKey, alookup, hk, hk'] using ih

/-- The fields of a container-info dict that the detector reads
(`info.get('id','')`, `info.get('restart_count',0)`, `info.get('started','')`);
`emptyInfo` is the `{}` returned by `StateTracker.get_container_info` for an
unknown container. -/
structure ContainerInfo where
  id : String
  restart_count : Nat
  started : String
deriving DecidableEq, Repr

def emptyInfo : ContainerInfo := { id := "", restart_count := 0, started := "" }

/-- The mutable state of `StateTracker` (the spec's StateStore):
`_previous_states`, `_container_info`, `_previous_restart_counts`,
`_previous_started_times`. -/
structure TrackerState where
  previous_states : List (String × String)
  container_info : List (String × ContainerInfo)
  previous_restart_counts : List (String × Nat)
  previous_started_times : List (String × String)
deriving DecidableEq, Repr

def get_container_info (σ : TrackerState) (nm : String) : ContainerInfo :=
  (alookup σ.container_info nm).getD emptyInfo

def get_previous_restart_count (σ : TrackerState) (nm : String) : Nat :=
  (alookup σ.previous_restart_counts nm).getD 0

def get_previous_started_time (σ : TrackerState) (nm : String) : String :=
  (alookup σ.previous_started_times nm).getD ""

def update_restart_count (σ : TrackerState) (nm : String) (c : Nat) : TrackerState :=
  { σ with previous_restart_counts := setKey σ.previous_restart_counts nm c }

def update_started_time (σ : TrackerState) (nm : String) (t : String) : TrackerState :=
  { σ with previous_started_times := setKey σ.previous_started_times nm t }

def remove_container_tracking (σ : TrackerState) (nm : String) : TrackerState :=
  { σ with previous_restart_counts := delKey σ.previous_restart_counts nm,
           previous_started_times := delKey σ.previous_started_times nm }

/-- The change dicts built by `ChangeDetector`, as a closed variant type.
`container_restarted` dicts carry `restart_type: 'automatic'` (with the two
restart counts) or `restart_type: 'manual'` (with the two started times);
the detector produces no other restart type. -/
inductive Change where
  | container_restarted_auto (container_id container_name : String)
      (previous_restart_count current_restart_count : Nat) (current_status : String)
  | container_restarted_manual (container_id container_name : String)
      (previous_started_time current_started_time : String) (current_status : String)
  | container_stopped (container_id container_name previous_status current_status : String)
  | container_started (container_id container_name previous_status current_status : String)
  | state_change (container_id container_name previous_status current_status : String)
  | container_added (container_id container_name current_status : String)
  | container_removed (container_name previous_status : String)
deriving DecidableEq, Repr

def eventName : Change → String
  | Change.container_restarted_auto _ n _ _ _ => n
  | Change.container_restarted_manual _ n _ _ _ => n
  | Change.container_stopped _ n _ _ => n
  | Change.container_started _ n _ _ => n
  | Change.state_change _ n _ _ => n
  | Change.container_added _ n _ => n
  | Change.container_removed n _ => n

def isAutoRestart : Change → Bool
  | Change.container_restarted_auto _ _ _ _ _ => true
  | _ => false

def isManualRestart : Change → Bool
  | Change.container_restarted_manual _ _ _ _ _ => true
  | _ => false

def isStatusEvent : Change → Bool
  | Change.container_stopped _ _ _ _ => true
  | Change.container_started _ _ _ _ => true
  | Change.state_change _ _ _ _ => true
  | _ => false

/-- Python runtime errors that `detect_changes` can raise:
`manual_restart_changes` is read on the status-check line before ever being
assigned when `previous_status` is falsy and no restart-count change fired. -/
inductive PyErr where
  | unboundLocal
deriving DecidableEq, Repr

/-- Python truthiness of `previous_states.get(name)`. -/
def truthy : Option String → Bool
  | none => false
  | some s => s != ""

/-- `ChangeDetector._detect_restart_count_changes`. -/
def detect_restart_count_changes (σ : TrackerState) (nm : String)
    (info : ContainerInfo) (cst : String) : List Change × TrackerState :=
  if get_previous_restart_count σ nm < info.restart_count then
    ([Change.container_restarted_auto info.id nm
        (get_previous_restart_count σ nm) info.restart_count cst],
     update_restart_count σ nm info.restart_count)
  else ([], σ)

def manualPrevStatuses : List String := ["stopped", "exited", "created", "restarting"]

/-- `ChangeDetector._detect_manual_restarts` (always updates the started-time
tracking when the current started time is non-empty, whether or not an event
fired). -/
def detect_manual_restarts (σ : TrackerState) (nm : String)
    (info : ContainerInfo) (cst pst : String) : List Change × TrackerState :=
  let changes :=
    if cst = "running" ∧ get_previous_started_time σ nm ≠ "" ∧
        info.started ≠ get_previous_started_time σ nm ∧
        pst ∈ manualPrevStatuses then
      [Change.container_restarted_manual info.id nm
        (get_previous_started_time σ nm) info.started cst]
    else []
  (changes, if info.started ≠ "" then update_started_time σ nm info.started else σ)

/-- The stop/start/generic classification in the body of
`detect_changes` (reached only when the guard on the status-check line is
true). -/
def statusEventsCore (info : ContainerInfo) (nm pst cst : String) : List Change :=
  if pst = "running" ∧ cst ∈ ["stopped", "exited", "dead"] then
    [Change.container_stopped info.id nm pst cst]
  else if pst ∈ ["stopped", "exited", "created", "paused"] ∧ cst = "running" then
    [Change.container_started info.id nm pst cst]
  else
    [Change.state_change info.id nm pst cst]

/-- The conditional manual-restart block of the main loop
(`if previous_status: manual_restart_changes = self._detect_manual_restarts(...)`).
The third component is the binding state of `manual_restart_changes` after
the block. -/
def manualStep (prevS : List (String × String)) (σ : TrackerState)
    (mvar : Option (List Change)) (nm cst : String) (info : ContainerInfo) :
    List Change × TrackerState × Option (List Change) :=
  if truthy (alookup prevS nm) then
    let mr := detect_manual_restarts σ nm info cst ((alookup prevS nm).getD "")
    (mr.1, mr.2, some mr.1)
  else ([], σ, mvar)

/-- One iteration of the main loop of `ChangeDetector.detect_changes` for the
entity `nm` with current status `cst`.  `mvar` is the binding state of the
local variable `manual_restart_changes` (`Option` models bound/unbound); the
status-check line `if not restart_changes and not manual_restart_changes and
previous_status and previous_status != current_status:` evaluates left to
right and raises `UnboundLocalError` when it reads the unbound variable. -/
def processOne (prevS : List (String × String)) (σ : TrackerState)
    (mvar : Option (List Change)) (nm cst : String) :
    Except PyErr (List Change) × TrackerState × Option (List Change) :=
  let pst := alookup prevS nm
  let info := get_container_info σ nm
  let rc := detect_restart_count_changes σ nm info cst
  let mstep := manualStep prevS rc.2 mvar nm cst info
  if rc.1 = [] then
    match mstep.2.2 with
    | none => (Except.error PyErr.unboundLocal, mstep.2.1, none)
    | some mc =>
      (Except.ok (rc.1 ++ mstep.1 ++
        (if mc = [] ∧ truthy pst ∧ pst.getD "" ≠ cst then
          statusEventsCore info nm (pst.getD "") cst else [])),
       mstep.2.1, some mc)
  else (Except.ok (rc.1 ++ mstep.1), mstep.2.1, mstep.2.2)

/-- The main `for container_name, current_status in current_states.items()`
loop of `detect_changes`. -/
def detectEntities (prevS : List (String × String)) :
    List (String × String) → TrackerState → Option (List Change) →
    Except PyErr (List Change) × TrackerState
  | [], σ, _ => (Except.ok [], σ)
  | (nm, cst) :: rest, σ, mvar =>
    match processOne prevS σ mvar nm cst with
    | (Except.error e, σ', _) => (Except.error e, σ')
    | (Except.ok evs, σ', mvar') =>
      match detectEntities prevS rest σ' mvar' with
      | (Except.error e, σ'') => (Except.error e, σ'')
      | (Except.ok more, σ'') => (Except.ok (evs ++ more), σ'')

/-- `ChangeDetector._detect_new_containers`. -/
def detect_new_containers (prevS : List (String × String)) :
    List (String × String) → TrackerState → List Change × TrackerState
  | [], σ => ([], σ)
  | (nm, cst) :: rest, σ =>
    if (alookup prevS nm).isSome then detect_new_containers prevS rest σ
    else
      let info := get_container_info σ nm
      let σ1 := update_restart_count σ nm info.restart_count
      let σ2 := if info.started ≠ "" then update_started_time σ1 nm info.started else σ1
      let r := detect_new_containers prevS rest σ2
      (Change.container_added info.id nm cst :: r.1, r.2)

/-- `ChangeDetector._detect_removed_containers`. -/
def detect_removed_containers (curS : List (String × String)) :
    List (String × String) → TrackerState → List Change × TrackerState
  | [], σ => ([], σ)
  | (nm, pst) :: rest, σ =>
    if (alookup curS nm).isSome then detect_removed_containers curS rest σ
    else
      let r := detect_removed_containers curS rest (remove_container_tracking σ nm)
      (Change.container_removed nm pst :: r.1, r.2)

/-- `ChangeDetector.detect_changes(current_states, previous_states)`.
On a raised exception the partially built change list is discarded (the
exception propagates to the caller) but the tracker mutations made so far
persist, hence the state is returned in both cases. -/
def detect_changes (σ : TrackerState) (curS prevS : List (String × String)) :
    Except PyErr (List Change) × TrackerState :=
  match detectEntities prevS curS σ none with
  | (Except.error e, σ') => (Except.error e, σ')
  | (Except.ok evs, σ') =>
    let rNew := detect_new_containers prevS curS σ'
    let rRem := detect_removed_containers curS prevS rNew.2
    (Except.ok (evs ++ rNew.1 ++ rRem.1), rRem.2)

/-- The state of `CooldownManager`: the window in seconds and the
`_last_notifications` map (wall-clock timestamps, modelled as integer
seconds). -/
structure CooldownState where
  cooldown_seconds : Int
  last_notifications : List (String × Int)
deriving DecidableEq, Repr

/-- `CooldownManager.is_in_cooldown` evaluated at wall-clock time `now`. -/
def is_in_cooldown (c : CooldownState) (now : Int) (key : String) : Bool :=
  match alookup c.last_notifications key with
  | none => false
  | some last => decide (0 < c.cooldown_seconds - (now - last))

/-- `CooldownManager.update_cooldown` at wall-clock time `now`. -/
def update_cooldown (c : CooldownState) (now : Int) (key : String) : CooldownState :=
  { c with last_notifications := setKey c.last_notifications key now }

/-- The `type` string of a change dict. -/
def changeType : Change → String
  | Change.container_restarted_auto _ _ _ _ _ => "container_restarted"
  | Change.container_restarted_manual _ _ _ _ _ => "container_restarted"
  | Change.container_stopped _ _ _ _ => "container_stopped"
  | Change.container_started _ _ _ _ => "container_started"
  | Change.state_change _ _ _ _ => "state_change"
  | Change.container_added _ _ _ => "container_added"
  | Change.container_removed _ _ => "container_removed"

/-- `change.get('container_name', ...)`: every change dict built by the
detector carries `container_name`. -/
def containerKey (ch : Change) : String := eventName ch

/-- The `critical_changes` list of `NotificationManager._should_notify`. -/
def critical_changes : List String :=
  ["container_removed", "container_failed", "container_unhealthy",
   "container_stopped", "container_restarted", "container_started"]

/-- `NotificationManager._should_notify` at wall-clock time `now`. -/
def should_notify (c : CooldownState) (now : Int) (ch : Change) : Bool :=
  if changeType ch ∈ critical_changes then true
  else if is_in_cooldown c now (containerKey ch) then false
  else
    match ch with
    | Change.state_change _ _ pst cst =>
      if pst = "running" ∧ cst = "running" then false else true
    | _ => true

/-- One event of `NotificationManager.process_changes`: check
`_should_notify`, and if it passes call the sink (`_send_notification`);
`sinkOk` is the sink's success flag, on success the cooldown is armed for the
entity's key.  The first component is whether the event was dispatched to the
sink. -/
def process_change (c : CooldownState) (sinkOk : Bool) (now : Int) (ch : Change) :
    Bool × CooldownState :=
  if should_notify c now ch then
    (true, if sinkOk then update_cooldown c now (containerKey ch) else c)
  else (false, c)

/-- A sequence of routed events with their wall-clock arrival times; returns
the number of events dispatched to the sink and the final cooldown state. -/
def run_events (c : CooldownState) (sinkOk : Bool) :
    List (Int × Change) → Nat × CooldownState
  | [] => (0, c)
  | (t, ch) :: rest =>
    let r := process_change c sinkOk t ch
    let r' := run_events r.2 sinkOk rest
    ((if r.1 then 1 else 0) + r'.1, r'.2)

/-- The `alert_level` strings of `NotificationFormatter`. -/
inductive AlertLevel where
  | info
  | warning
  | critical
deriving DecidableEq, Repr

/-- The `alert_level` field computed by `NotificationFormatter` for each
change dict (`_create_state_change_notification`,
`_create_restart_notification`, `_create_start_notification`,
`_create_stop_notification`, `_create_removal_notification`,
`_create_addition_notification`). -/
def alert_level : Change → AlertLevel
  | Change.state_change _ _ pst cst =>
    if pst = "running" ∧ cst ∈ ["exited", "stopped", "dead"] then AlertLevel.critical
    else if cst = "restarting" then AlertLevel.warning
    else if pst = "running" ∧ cst = "unhealthy" then AlertLevel.warning
    else AlertLevel.info
  | Change.container_restarted_auto _ _ _ _ cst =>
    if cst ≠ "running" then AlertLevel.critical else AlertLevel.warning
  | Change.container_restarted_manual _ _ _ _ cst =>
    if cst ≠ "running" then AlertLevel.critical else AlertLevel.warning
  | Change.container_started _ _ _ _ => AlertLevel.info
  | Change.container_stopped _ _ _ _ => AlertLevel.critical
  | Change.container_removed _ _ => AlertLevel.critical
  | Change.container_added _ _ _ => AlertLevel.info

/-- Severity mapping as the amended claim C9 states it: `Stopped`/`Removed`
critical; `Restarted` critical when the resulting status is not `running`,
warning otherwise; a generic `StatusChanged` from `running` into
`stopped`/`exited`/`dead` critical; a generic `StatusChanged` whose current
status is `restarting`, or whose previous status is `running` and current
status `unhealthy`, warning; `Started`/`Added` and everything else
informational. -/
def specSeverity : Change → AlertLevel
  | Change.container_stopped _ _ _ _ => AlertLevel.critical
  | Change.container_removed _ _ => AlertLevel.critical
  | Change.container_restarted_auto _ _ _ _ cst =>
    if cst ≠ "running" then AlertLevel.critical else AlertLevel.warning
  | Change.container_restarted_manual _ _ _ _ cst =>
    if cst ≠ "running" then AlertLevel.critical else AlertLevel.warning
  | Change.state_change _ _ pst cst =>
    if pst = "running" ∧ cst ∈ ["exited", "stopped", "dead"] then AlertLevel.critical
    else if cst = "restarting" ∨ (pst = "running" ∧ cst = "unhealthy") then AlertLevel.warning
    else AlertLevel.info
  | Change.container_started _ _ _ _ => AlertLevel.info
  | Change.container_added _ _ _ => AlertLevel.info

/-- The status events emitted for one entity in a cycle in which neither
restart check fires and the previous status is truthy: the source's
classification applied when previous and current status differ, nothing
otherwise. -/
def quietStatusEvents (info : ContainerInfo) (nm pst cst : String) : List Change :=
  if pst ≠ cst then statusEventsCore info nm pst cst else []

/-! Concrete inputs for counterexamples, failing-input evaluations and
witnesses. -/

/-- A tracker that has just picked up a snapshot of one never-seen container
`web` with restart count 0 (`_previous_states` is still empty). -/
def newContainerTracker : TrackerState :=
  { previous_states := [],
    container_info := [("web", { id := "w1", restart_count := 0, started := "s0" })],
    previous_restart_counts := [],
    previous_started_times := [] }

/-- Tracker for the C1 counterexample: the target `tgt` satisfies every
hypothesis of claim C1 (present in both maps, restart count 1 exceeds the
tracked 0, status `running` differs from previous `exited`), but the fresh
container `fresh` (restart count 0, no previous status) is iterated first
and crashes the whole call, so no event is emitted for `tgt`. -/
def c1Tracker : TrackerState :=
  { previous_states := [("tgt", "exited")],
    container_info := [("fresh", { id := "f", restart_count := 0, started := "x" }),
                       ("tgt", { id := "i", restart_count := 1, started := "s" })],
    previous_restart_counts := [("tgt", 0)],
    previous_started_times := [] }

def c1Cur : List (String × String) := [("fresh", "running"), ("tgt", "running")]

def c1Prev : List (String × String) := [("tgt", "exited")]

/-- Tracker for the C1 witness: container `a` with restart count 1 against a
tracked count of 0 and a status change `exited → running`. -/
def c1wTracker : TrackerState :=
  { previous_states := [("a", "exited")],
    container_info := [("a", { id := "i", restart_count := 1, started := "t" })],
    previous_restart_counts := [("a", 0)],
    previous_started_times := [] }

/-- Tracker for the C2 counterexample: container `c` has both a restart-count
increase (0 → 1) and a changed started time with previous status `exited`
and current status `running`. -/
def c2Tracker : TrackerState :=
  { previous_states := [("c", "exited")],
    container_info := [("c", { id := "i", restart_count := 1, started := "t2" })],
    previous_restart_counts := [("c", 0)],
    previous_started_times := [("c", "t1")] }

/-- Tracker for the C2 witness: container `c` with an unchanged restart count
but a changed started time, previous status `exited`, current `running`: a
pure manual-restart cycle. -/
def c2wTracker : TrackerState :=
  { previous_states := [("c", "exited")],
    container_info := [("c", { id := "i", restart_count := 0, started := "t2" })],
    previous_restart_counts := [("c", 0)],
    previous_started_times := [("c", "t1")] }

/-- Tracker for the C5 witness: everything equal to the tracked values. -/
def c5wTracker : TrackerState :=
  { previous_states := [("a", "running")],
    container_info := [("a", { id := "i", restart_count := 2, started := "t" })],
    previous_restart_counts := [("a", 2)],
    previous_started_times := [("a", "t")] }

/-- Tracker for the C6 counterexample: container `a` with a restart-count
increase (0 → 1). -/
def c6Tracker : TrackerState :=
  { previous_states := [("a", "running")],
    container_info := [("a", { id := "i", restart_count := 1, started := "t" })],
    previous_restart_counts := [("a", 0)],
    previous_started_times := [("a", "t")] }

def c6Cur : List (String × String) := [("a", "running")]

/-- Tracker for the C6 witness: no restart signals, but a status change
`running → paused` that is re-detected identically on a second run. -/
def c6wTracker : TrackerState :=
  { previous_states := [("a", "running")],
    container_info := [("a", { id := "i", restart_count := 1, started := "t" })],
    previous_restart_counts := [("a", 1)],
    previous_started_times := [("a", "t")] }

/-! Frame lemmas: which parts of the tracker state each detector step can
touch. -/

theorem update_restart_count_frame (σ : TrackerState) (nm : String) (c : Nat) :
    (update_restart_count σ nm c).previous_states = σ.previous_states ∧
    (update_restart_count σ nm c).container_info = σ.container_info ∧
    (update_restart_count σ nm c).previous_started_times = σ.previous_started_times :=
  ⟨rfl, rfl, rfl⟩

theorem update_started_time_frame (σ : TrackerState) (nm t : String) :
    (update_started_time σ nm t).previous_states = σ.previous_states ∧
    (update_started_time σ nm t).container_info = σ.container_info ∧
    (update_started_time σ nm t).previous_restart_counts = σ.previous_restart_counts :=
  ⟨rfl, rfl, rfl⟩

theorem rc_frame (σ : TrackerState) (nm : String) (info : ContainerInfo) (cst : String) :
    (detect_restart_count_changes σ nm info cst).2.previous_states = σ.previous_states ∧
    (detect_restart_count_changes σ nm info cst).2.container_info = σ.container_info ∧
    (detect_restart_count_changes σ nm info cst).2.previous_started_times =
      σ.previous_started_times := by
  unfold detect_restart_count_changes
  split <;> simp [update_restart_count]

theorem mr_frame (σ : TrackerState) (nm : String) (info : ContainerInfo) (cst pst : String) :
    (detect_manual_restarts σ nm info cst pst).2.previous_states = σ.previous_states ∧
    (detect_manual_restarts σ nm info cst pst).2.container_info = σ.container_info ∧
    (detect_manual_restarts σ nm info cst pst).2.previous_restart_counts =
      σ.previous_restart_counts := by
  unfold detect_manual_restarts
  dsimp only
  split <;> simp [update_started_time]

/-- The tracker-state component of `processOne` is exactly the state after
the restart-count check followed by the manual-restart block; the final
status classification never mutates state. -/
theorem processOne_state_eq (prevS : List (String × String)) (σ : TrackerState)
    (mvar : Option (List Change)) (nm cst : String) :
    (processOne prevS σ mvar nm cst).2.1 =
      (manualStep prevS (detect_restart_count_changes σ nm (get_container_info σ nm) cst).2
        mvar nm cst (get_container_info σ nm)).2.1 := by
  unfold processOne
  dsimp only
  split
  · split <;> rfl
  · rfl

theorem manualStep_frame (prevS : List (String × String)) (σ : TrackerState)
    (mvar : Option (List Change)) (nm cst : String) (info : ContainerInfo) :
    (manualStep prevS σ mvar nm cst info).2.1.previous_states = σ.previous_states ∧
    (manualStep prevS σ mvar nm cst info).2.1.container_info = σ.container_info ∧
    (manualStep prevS σ mvar nm cst info).2.1.previous_restart_counts =
      σ.previous_restart_counts := by
  unfold manualStep
  split
  · exact mr_frame σ nm info cst ((alookup prevS nm).getD "")
  · exact ⟨rfl, rfl, rfl⟩

theorem processOne_frame (prevS : List (String × String)) (σ : TrackerState)
    (mvar : Option (List Change)) (nm cst : String) :
    (processOne prevS σ mvar nm cst).2.1.previous_states = σ.previous_states ∧
    (processOne prevS σ mvar nm cst).2.1.container_info = σ.container_info := by
  rw [processOne_state_eq]
  have h1 := rc_frame σ nm (get_container_info σ nm) cst
  have h2 := manualStep_frame prevS
    (detect_restart_count_changes σ nm (get_container_info σ nm) cst).2 mvar nm cst
    (get_container_info σ nm)
  exact ⟨h2.1.trans h1.1, h2.2.1.trans h1.2.1⟩

theorem detectEntities_frame (prevS : List (String × String)) :
    ∀ (l : List (String × String)) (σ : TrackerState) (mvar : Option (List Change)),
    (detectEntities prevS l σ mvar).2.previous_states = σ.previous_states ∧
    (detectEntities prevS l σ mvar).2.container_info = σ.container_info := by
  intro l
  induction l with
  | nil => intro σ mvar; exact ⟨rfl, rfl⟩
  | cons p rest ih =>
    intro σ mvar
    obtain ⟨nm, cst⟩ := p
    have hf := processOne_frame prevS σ mvar nm cst
    rcases hpo : processOne prevS σ mvar nm cst with ⟨res, σ', mvar'⟩
    rw [hpo] at hf
    cases res with
    | error e => simpa [detectEntities, hpo] using hf
    | ok evs =>
      have hr := ih σ' mvar'
      rcases hre : detectEntities prevS rest σ' mvar' with ⟨res2, σ''⟩
      rw [hre] at hr
      cases res2 with
      | error e =>
        simp only [detectEntities, hpo, hre]
        exact ⟨hr.1.trans hf.1, hr.2.trans hf.2⟩
      | ok more =>
        simp only [detectEntities, hpo, hre]
        exact ⟨hr.1.trans hf.1, hr.2.trans hf.2⟩

theorem detect_new_frame (prevS : List (String × String)) :
    ∀ (l : List (String × String)) (σ : TrackerState),
    (detect_new_containers prevS l σ).2.previous_states = σ.previous_states ∧
    (detect_new_containers prevS l σ).2.container_info = σ.container_info := by
  intro l
  induction l with
  | nil => intro σ; exact ⟨rfl, rfl⟩
  | cons p rest ih =>
    intro σ
    obtain ⟨nm, cst⟩ := p
    by_cases h : (alookup prevS nm).isSome
    · simpa [detect_new_containers, h] using ih σ
    · simp only [detect_new_containers, h, if_false, Bool.false_eq_true]
      split <;> simpa [update_restart_count, update_started_time] using
        ih _

theorem detect_removed_frame (curS : List (String × String)) :
    ∀ (l : List (String × String)) (σ : TrackerState),
    (detect_removed_containers curS l σ).2.previous_states = σ.previous_states ∧
    (detect_removed_containers curS l σ).2.container_info = σ.container_info := by
  intro l
  induction l with
  | nil => intro σ; exact ⟨rfl, rfl⟩
  | cons p rest ih =>
    intro σ
    obtain ⟨nm, pst⟩ := p
    by_cases h : (alookup curS nm).isSome
    · simpa [detect_removed_containers, h] using ih σ
    · simpa [detect_removed_containers, h, remove_container_tracking] using ih _

/-- C10: `detect_changes` never touches the previous-status map (nor the raw
snapshot map); it mutates only the restart-count and started-time tracking.
Advancing `_previous_states` is done only by
`StateTracker.update_previous_states`, which `detect_changes` never calls. -/
theorem C10_theorem (σ : TrackerState) (curS prevS : List (String × String)) :
    (detect_changes σ curS prevS).2.previous_states = σ.previous_states ∧
    (detect_changes σ curS prevS).2.container_info = σ.container_info := by
  unfold detect_changes
  have h1 := detectEntities_frame prevS curS σ none
  rcases hde : detectEntities prevS curS σ none with ⟨res, σ'⟩
  rw [hde] at h1
  cases res with
  | error e => simpa [hde] using h1
  | ok evs =>
    have h2 := detect_new_frame prevS curS σ'
    have h3 := detect_removed_frame curS prevS (detect_new_containers prevS curS σ').2
    simp only [hde]
    exact ⟨h3.1.trans (h2.1.trans h1.1), h3.2.trans (h2.2.trans h1.2)⟩

/-- C4: the claim is right and the code is wrong.  For a brand-new container
(absent from `previous_states`) whose restart count does not exceed the
(default 0) tracked count, the status-check line of `detect_changes` reads
the never-assigned local `manual_restart_changes` and raises
`UnboundLocalError`, so no `Added` event is produced at all. -/
theorem C4_theorem :
    (detect_changes newContainerTracker [("web", "running")] []).1 =
      Except.error PyErr.unboundLocal := rfl

/-- C1 fails as stated: an input satisfying all of C1's conditions for `tgt`
on which `detect_changes` raises instead of emitting the automatic
`Restarted` event (the unbound-local slip of C4, triggered by an unrelated
entity in the same cycle). -/
theorem C1_counterexample :
    alookup c1Cur "tgt" = some "running" ∧
    alookup c1Prev "tgt" = some "exited" ∧
    get_previous_restart_count c1Tracker "tgt" <
      (get_container_info c1Tracker "tgt").restart_count ∧
    ("running" : String) ≠ "exited" ∧
    (detect_changes c1Tracker c1Cur c1Prev).1 = Except.error PyErr.unboundLocal :=
  ⟨rfl, rfl, by decide, by decide, rfl⟩

/-- C2 fails as stated: the manual-restart check is not guarded by "no
automatic restart was emitted", so one cycle emits both an automatic and a
manual `Restarted` event for the same entity. -/
theorem C2_counterexample :
    (detect_changes c2Tracker [("c", "running")] [("c", "exited")]).1 =
      Except.ok [Change.container_restarted_auto "i" "c" 0 1 "running",
                 Change.container_restarted_manual "i" "c" "t1" "t2" "running"] ∧
    ([Change.container_restarted_auto "i" "c" 0 1 "running",
      Change.container_restarted_manual "i" "c" "t1" "t2" "running"].countP
        isAutoRestart = 1) ∧
    ([Change.container_restarted_auto "i" "c" 0 1 "running",
      Change.container_restarted_manual "i" "c" "t1" "t2" "running"].countP
        isManualRestart = 1) :=
  ⟨rfl, by decide, by decide⟩

/-- C6 fails as stated: the first `detect` call emits the automatic restart
and updates the tracked restart count, so the second call with identical
inputs returns an empty list. -/
theorem C6_counterexample :
    (detect_changes c6Tracker c6Cur c6Cur).1 =
      Except.ok [Change.container_restarted_auto "i" "a" 0 1 "running"] ∧
    (detect_changes (detect_changes c6Tracker c6Cur c6Cur).2 c6Cur c6Cur).1 =
      Except.ok [] ∧
    (detect_changes c6Tracker c6Cur c6Cur).1 ≠
      (detect_changes (detect_changes c6Tracker c6Cur c6Cur).2 c6Cur c6Cur).1 :=
  ⟨rfl, rfl, fun h => List.cons_ne_nil _ _ (Except.ok.inj h)⟩

/-- C3 fails as stated: `_send_notification` updates the cooldown
unconditionally on sink success, so a successfully notified `container_stopped`
event (not a generic `StatusChanged`) arms the cooldown for its key. -/
theorem C3_counterexample :
    changeType (Change.container_stopped "i" "c" "running" "exited") ≠ "state_change" ∧
    (process_change { cooldown_seconds := 120, last_notifications := [] } true 5
      (Change.container_stopped "i" "c" "running" "exited")).1 = true ∧
    alookup (process_change { cooldown_seconds := 120, last_notifications := [] } true 5
      (Change.container_stopped "i" "c" "running" "exited")).2.last_notifications "c" =
      some 5 :=
  ⟨by decide, rfl, rfl⟩

/-- C3 amended: on sink success the router arms the cooldown for the entity's
key for every dispatched event, whatever its kind. -/
theorem C3_theorem (c : CooldownState) (now : Int) (ch : Change)
    (h : should_notify c now ch = true) :
    (process_change c true now ch).1 = true ∧
    alookup (process_change c true now ch).2.last_notifications (containerKey ch) =
      some now := by
  unfold process_change
  simp [h, update_cooldown, alookup_setKey_self]

/-- Witness for C3: a concrete successfully dispatched stop event whose key
ends up armed. -/
theorem C3_witness :
    (process_change { cooldown_seconds := 120, last_notifications := [] } true 7
      (Change.container_stopped "i2" "db" "running" "dead")).1 = true ∧
    alookup (process_change { cooldown_seconds := 120, last_notifications := [] } true 7
      (Change.container_stopped "i2" "db" "running" "dead")).2.last_notifications
      (containerKey (Change.container_stopped "i2" "db" "running" "dead")) = some 7 :=
  C3_theorem _ _ _ (by decide)

/-- C7: events whose type is in the `critical_changes` list — in particular
`container_stopped`, `container_started`, `container_restarted` (either
kind) and `container_removed` — pass `_should_notify` and are dispatched to
the sink regardless of the cooldown state. -/
theorem C7_theorem (c : CooldownState) (now : Int) (sinkOk : Bool) (ch : Change)
    (h : changeType ch ∈
      ["container_stopped", "container_started", "container_restarted",
       "container_removed"]) :
    should_notify c now ch = true ∧ (process_change c sinkOk now ch).1 = true := by
  have hc : changeType ch ∈ critical_changes := by
    simp only [critical_changes, List.mem_cons, List.not_mem_nil, or_false] at h ⊢
    tauto
  have hs : should_notify c now ch = true := by
    unfold should_notify
    simp [hc]
  exact ⟨hs, by simp [process_change, hs]⟩

/-- Witness for C7: a stop event for a key with an active (non-expired)
cooldown entry is still notified. -/
theorem C7_witness :
    is_in_cooldown { cooldown_seconds := 120, last_notifications := [("db", 0)] } 10
      "db" = true ∧
    (should_notify { cooldown_seconds := 120, last_notifications := [("db", 0)] } 10
        (Change.container_stopped "i" "db" "running" "exited") = true ∧
      (process_change { cooldown_seconds := 120, last_notifications := [("db", 0)] } true
        10 (Change.container_stopped "i" "db" "running" "exited")).1 = true) :=
  ⟨by decide, C7_theorem _ _ _ _ (by decide)⟩

/-- C9 fails as stated: a generic `StatusChanged` into `unhealthy` whose
previous status is not `running` (here `paused`) is formatted at level
`info`, not `warning`. -/
theorem C9_counterexample :
    alert_level (Change.state_change "i" "c" "paused" "unhealthy") = AlertLevel.info ∧
    AlertLevel.info ≠ AlertLevel.warning :=
  ⟨rfl, by decide⟩

/-- C9 amended: the formatter's severity equals the corrected mapping
`specSeverity` for every detector-produced event. -/
theorem C9_theorem (ch : Change) : alert_level ch = specSeverity ch := by
  cases ch with
  | state_change cid nm pst cst =>
    simp only [alert_level, specSeverity]
    split_ifs with h1 h2 h3 h4 h5 <;> simp_all
  | container_restarted_auto cid nm a b cst => rfl
  | container_restarted_manual cid nm a b cst => rfl
  | container_stopped cid nm pst cst => rfl
  | container_started cid nm pst cst => rfl
  | container_added cid nm cst => rfl
  | container_removed nm pst => rfl

/-- C8: with a 120-second window, two generic `StatusChanged` events for the
same key (neither of the non-notified `running → running` shape, so the
first is dispatched successfully) arriving 10 seconds apart produce exactly
one dispatched notification, while the same two events arriving 130 seconds
apart produce two. -/
theorem C8_theorem (t : Int) (k i1 i2 p1 c1 p2 c2 : String)
    (h1 : ¬(p1 = "running" ∧ c1 = "running"))
    (h2 : ¬(p2 = "running" ∧ c2 = "running")) :
    (run_events { cooldown_seconds := 120, last_notifications := [] } true
      [(t, Change.state_change i1 k p1 c1),
       (t + 10, Change.state_change i2 k p2 c2)]).1 = 1 ∧
    (run_events { cooldown_seconds := 120, last_notifications := [] } true
      [(t, Change.state_change i1 k p1 c1),
       (t + 130, Change.state_change i2 k p2 c2)]).1 = 2 := by
  have hnc : ("state_change" ∈ critical_changes) = False := by
    simp [critical_changes]
  have hs1 : should_notify { cooldown_seconds := 120, last_notifications := [] } t
      (Change.state_change i1 k p1 c1) = true := by
    simp [should_notify, changeType, hnc, is_in_cooldown, containerKey, eventName,
      alookup, h1]
  have hl : alookup [(k, t)] k = some t := by simp [alookup]
  have hcool10 : is_in_cooldown { cooldown_seconds := 120, last_notifications := [(k, t)] }
      (t + 10) k = true := by
    simp only [is_in_cooldown, hl, decide_eq_true_eq]
    omega
  have hcool130 : is_in_cooldown { cooldown_seconds := 120, last_notifications := [(k, t)] }
      (t + 130) k = false := by
    simp only [is_in_cooldown, hl, decide_eq_false_iff_not]
    omega
  have hs2 : should_notify { cooldown_seconds := 120, last_notifications := [(k, t)] }
      (t + 10) (Change.state_change i2 k p2 c2) = false := by
    simp [should_notify, changeType, hnc, containerKey, eventName, hcool10]
  have hs3 : should_notify { cooldown_seconds := 120, last_notifications := [(k, t)] }
      (t + 130) (Change.state_change i2 k p2 c2) = true := by
    simp [should_notify, changeType, hnc, containerKey, eventName, hcool130, h2]
  have hp1 : process_change { cooldown_seconds := 120, last_notifications := [] } true t
      (Change.state_change i1 k p1 c1) =
      (true, { cooldown_seconds := 120, last_notifications := [(k, t)] }) := by
    simp [process_change, hs1, update_cooldown, setKey, containerKey, eventName]
  have hp2 : process_change { cooldown_seconds := 120, last_notifications := [(k, t)] }
      true (t + 10) (Change.state_change i2 k p2 c2) =
      (false, { cooldown_seconds := 120, last_notifications := [(k, t)] }) := by
    simp [process_change, hs2]
  have hp3 : (process_change { cooldown_seconds := 120, last_notifications := [(k, t)] }
      true (t + 130) (Change.state_change i2 k p2 c2)).1 = true := by
    simp [process_change, hs3]
  constructor
  · simp [run_events, hp1, hp2]
  · simp [run_events, hp1, hp3]

/-- Witness for C8 at a concrete key, times 0/10/130 and statuses
`running → paused`. -/
theorem C8_witness :
    ¬(("running" : String) = "running" ∧ ("paused" : String) = "running") ∧
    ((run_events { cooldown_seconds := 120, last_notifications := [] } true
      [((0 : Int), Change.state_change "i" "web" "running" "paused"),
       ((0 : Int) + 10, Change.state_change "i" "web" "running" "paused")]).1 = 1 ∧
    (run_events { cooldown_seconds := 120, last_notifications := [] } true
      [((0 : Int), Change.state_change "i" "web" "running" "paused"),
       ((0 : Int) + 130, Change.state_change "i" "web" "running" "paused")]).1 = 2) :=
  ⟨by decide, C8_theorem 0 "web" "i" "i" "running" "paused" "running" "paused"
    (by decide) (by decide)⟩

/-! Pointwise getter lemmas for the tracker mutators. -/

theorem get_info_congr {σ' σ : TrackerState} (h : σ'.container_info = σ.container_info)
    (k : String) : get_container_info σ' k = get_container_info σ k := by
  unfold get_container_info
  rw [h]

theorem count_of_update_started (σ : TrackerState) (nm t : String) (k : String) :
    get_previous_restart_count (update_started_time σ nm t) k =
      get_previous_restart_count σ k := rfl

theorem started_of_update_count (σ : TrackerState) (nm : String) (c : Nat) (k : String) :
    get_previous_started_time (update_restart_count σ nm c) k =
      get_previous_started_time σ k := rfl

theorem count_of_update_count_ne (σ : TrackerState) (nm : String) (c : Nat) {k : String}
    (h : k ≠ nm) :
    get_previous_restart_count (update_restart_count σ nm c) k =
      get_previous_restart_count σ k := by
  unfold get_previous_restart_count update_restart_count
  rw [alookup_setKey_of_ne _ _ h]

theorem count_of_update_count_self (σ : TrackerState) (nm : String) (c : Nat) :
    get_previous_restart_count (update_restart_count σ nm c) nm = c := by
  unfold get_previous_restart_count update_restart_count
  rw [alookup_setKey_self]
  rfl

theorem started_of_update_started_ne (σ : TrackerState) (nm t : String) {k : String}
    (h : k ≠ nm) :
    get_previous_started_time (update_started_time σ nm t) k =
      get_previous_started_time σ k := by
  unfold get_previous_started_time update_started_time
  rw [alookup_setKey_of_ne _ _ h]

theorem started_of_update_started_self (σ : TrackerState) (nm t : String) :
    get_previous_started_time (update_started_time σ nm t) nm = t := by
  unfold get_previous_started_time update_started_time
  rw [alookup_setKey_self]
  rfl

/-! Shape lemmas for the two restart checks. -/

theorem rc_pos (σ : TrackerState) (nm : String) (info : ContainerInfo) (cst : String)
    (h : get_previous_restart_count σ nm < info.restart_count) :
    detect_restart_count_changes σ nm info cst =
      ([Change.container_restarted_auto info.id nm (get_previous_restart_count σ nm)
          info.restart_count cst],
       update_restart_count σ nm info.restart_count) := by
  unfold detect_restart_count_changes
  rw [if_pos h]

theorem rc_neg (σ : TrackerState) (nm : String) (info : ContainerInfo) (cst : String)
    (h : ¬ get_previous_restart_count σ nm < info.restart_count) :
    detect_restart_count_changes σ nm info cst = ([], σ) := by
  unfold detect_restart_count_changes
  rw [if_neg h]

theorem mr_pos (σ : TrackerState) (nm : String) (info : ContainerInfo) (cst pst : String)
    (h : cst = "running" ∧ get_previous_started_time σ nm ≠ "" ∧
      info.started ≠ get_previous_started_time σ nm ∧ pst ∈ manualPrevStatuses) :
    detect_manual_restarts σ nm info cst pst =
      ([Change.container_restarted_manual info.id nm (get_previous_started_time σ nm)
          info.started cst],
       if info.started ≠ "" then update_started_time σ nm info.started else σ) := by
  unfold detect_manual_restarts
  dsimp only
  rw [if_pos h]

theorem mr_neg (σ : TrackerState) (nm : String) (info : ContainerInfo) (cst pst : String)
    (h : ¬(cst = "running" ∧ get_previous_started_time σ nm ≠ "" ∧
      info.started ≠ get_previous_started_time σ nm ∧ pst ∈ manualPrevStatuses)) :
    detect_manual_restarts σ nm info cst pst =
      ([], if info.started ≠ "" then update_started_time σ nm info.started else σ) := by
  unfold detect_manual_restarts
  dsimp only
  rw [if_neg h]

/-- A started-time update that writes back the already-tracked value leaves
every getter unchanged. -/
theorem started_update_same (σ : TrackerState) (nm t : String)
    (h : get_previous_started_time σ nm = t) (k : String) :
    get_previous_started_time (update_started_time σ nm t) k =
      get_previous_started_time σ k := by
  by_cases hk : k = nm
  · subst hk
    rw [started_of_update_started_self, h]
  · exact started_of_update_started_ne σ nm t hk

/-- A quiet per-entity step: previous status present and non-empty, restart
count not increased, started time unchanged — no event, no observable state
change. -/
theorem processOne_quiet (prevS : List (String × String)) (σ : TrackerState)
    (mv : Option (List Change)) (nm cst : String)
    (hp : alookup prevS nm = some cst) (hcne : cst ≠ "")
    (hcnt : (get_container_info σ nm).restart_count = get_previous_restart_count σ nm)
    (hst : (get_container_info σ nm).started = get_previous_started_time σ nm) :
    processOne prevS σ mv nm cst =
      (Except.ok [],
       (if (get_container_info σ nm).started ≠ "" then
          update_started_time σ nm (get_container_info σ nm).started else σ),
       some []) := by
  have htr : truthy (alookup prevS nm) = true := by
    rw [hp]
    simp [truthy, hcne]
  have hrc := rc_neg σ nm (get_container_info σ nm) cst (by rw [hcnt]; exact lt_irrefl _)
  have hmr := mr_neg σ nm (get_container_info σ nm) cst ((alookup prevS nm).getD "")
    (fun hc => hc.2.2.1 hst)
  have hg : (alookup prevS nm).getD "" = cst := by rw [hp]; rfl
  rw [hg] at hmr
  unfold processOne manualStep
  simp only [hrc, htr, if_true, hg]
  simp [hmr]

theorem detect_new_none (prevS : List (String × String)) :
    ∀ (l : List (String × String)) (σ : TrackerState),
    (∀ p ∈ l, (alookup prevS p.1).isSome) →
    detect_new_containers prevS l σ = ([], σ) := by
  intro l
  induction l with
  | nil => intro σ _; rfl
  | cons p rest ih =>
    intro σ h
    obtain ⟨nm, cst⟩ := p
    have hh := h (nm, cst) (List.mem_cons_self _ _)
    simp only [detect_new_containers, hh, if_true]
    exact ih σ (fun q hq => h q (List.mem_cons_of_mem _ hq))

theorem detect_removed_none (curS : List (String × String)) :
    ∀ (l : List (String × String)) (σ : TrackerState),
    (∀ p ∈ l, (alookup curS p.1).isSome) →
    detect_removed_containers curS l σ = ([], σ) := by
  intro l
  induction l with
  | nil => intro σ _; rfl
  | cons p rest ih =>
    intro σ h
    obtain ⟨nm, pst⟩ := p
    have hh := h (nm, pst) (List.mem_cons_self _ _)
    simp only [detect_removed_containers, hh, if_true]
    exact ih σ (fun q hq => h q (List.mem_cons_of_mem _ hq))

/-- Quiet main loop: when every current entity matches its tracked previous
status (non-empty), restart count and started time, the loop emits nothing
and leaves every getter unchanged. -/
theorem detectEntities_quiet (prevS : List (String × String)) :
    ∀ (l : List (String × String)) (σ : TrackerState) (mv : Option (List Change)),
    (∀ p ∈ l, alookup prevS p.1 = some p.2) →
    (∀ p ∈ l, p.2 ≠ "") →
    (∀ p ∈ l, (get_container_info σ p.1).restart_count = get_previous_restart_count σ p.1) →
    (∀ p ∈ l, (get_container_info σ p.1).started = get_previous_started_time σ p.1) →
    ∃ σ', detectEntities prevS l σ mv = (Except.ok [], σ') ∧
      σ'.container_info = σ.container_info ∧
      (∀ k, get_previous_restart_count σ' k = get_previous_restart_count σ k) ∧
      (∀ k, get_previous_started_time σ' k = get_previous_started_time σ k) := by
  intro l
  induction l with
  | nil =>
    intro σ mv _ _ _ _
    exact ⟨σ, rfl, rfl, fun _ => rfl, fun _ => rfl⟩
  | cons p rest ih =>
    intro σ mv h1 h2 h3 h4
    obtain ⟨nm, cst⟩ := p
    have hm : (nm, cst) ∈ (nm, cst) :: rest := List.mem_cons_self _ _
    have hq := processOne_quiet prevS σ mv nm cst (h1 _ hm) (h2 _ hm) (h3 _ hm) (h4 _ hm)
    set σ2 := (if (get_container_info σ nm).started ≠ "" then
      update_started_time σ nm (get_container_info σ nm).started else σ) with hσ2
    have hci : σ2.container_info = σ.container_info := by
      rw [hσ2]
      split <;> rfl
    have hcounts : ∀ k, get_previous_restart_count σ2 k = get_previous_restart_count σ k := by
      intro k
      rw [hσ2]
      split <;> rfl
    have hstarted : ∀ k, get_previous_started_time σ2 k = get_previous_started_time σ k := by
      intro k
      rw [hσ2]
      split
      · exact started_update_same σ nm _ (h4 _ hm).symm k
      · rfl
    have htail := ih σ2 (some [])
      (fun q hq' => h1 q (List.mem_cons_of_mem _ hq'))
      (fun q hq' => h2 q (List.mem_cons_of_mem _ hq'))
      (fun q hq' => by
        rw [get_info_congr hci, hcounts]
        exact h3 q (List.mem_cons_of_mem _ hq'))
      (fun q hq' => by
        rw [get_info_congr hci, hstarted]
        exact h4 q (List.mem_cons_of_mem _ hq'))
    obtain ⟨σ', hde, hci', hcounts', hstarted'⟩ := htail
    refine ⟨σ', ?_, hci'.trans hci, fun k => (hcounts' k).trans (hcounts k),
      fun k => (hstarted' k).trans (hstarted k)⟩
    simp only [detectEntities, hq, hde, List.nil_append]

/-- C5: when the key sets of current and previous coincide and every entity's
current status (non-empty, per the spec's status enum), restart count and
started time all equal the tracked previous values, `detect_changes` returns
an empty event list. -/
theorem C5_theorem (σ : TrackerState) (cur prev : List (String × String))
    (hkeys : ∀ n, alookup prev n = alookup cur n)
    (hmem : ∀ p ∈ cur, alookup prev p.1 = some p.2)
    (hne : ∀ p ∈ cur, p.2 ≠ "")
    (hcnt : ∀ p ∈ cur,
      (get_container_info σ p.1).restart_count = get_previous_restart_count σ p.1)
    (hst : ∀ p ∈ cur,
      (get_container_info σ p.1).started = get_previous_started_time σ p.1) :
    (detect_changes σ cur prev).1 = Except.ok [] := by
  obtain ⟨σ', hde, _, _, _⟩ := detectEntities_quiet prev cur σ none hmem hne hcnt hst
  have hnew : detect_new_containers prev cur σ' = ([], σ') :=
    detect_new_none prev cur σ' (fun p hp => by rw [hmem p hp]; rfl)
  have hrem : detect_removed_containers cur prev σ' = ([], σ') :=
    detect_removed_none cur prev σ' (fun p hp => by
      rw [← hkeys p.1]
      exact alookup_isSome_of_mem hp)
  unfold detect_changes
  rw [hde]
  simp [hnew, hrem]

/-- Witness for C5: one container, everything matching its tracked values. -/
theorem C5_witness :
    (detect_changes c5wTracker [("a", "running")] [("a", "running")]).1 =
      Except.ok [] :=
  C5_theorem c5wTracker [("a", "running")] [("a", "running")]
    (fun _ => rfl)
    (fun p hp => by rw [List.mem_singleton.mp hp]; rfl)
    (fun p hp => by rw [List.mem_singleton.mp hp]; decide)
    (fun p hp => by rw [List.mem_singleton.mp hp]; decide)
    (fun p hp => by rw [List.mem_singleton.mp hp]; decide)

/-! Shape lemmas for event lists. -/

theorem mr_events_shape (σ : TrackerState) (nm : String) (info : ContainerInfo)
    (cst pst : String) :
    (detect_manual_restarts σ nm info cst pst).1 = [] ∨
    (detect_manual_restarts σ nm info cst pst).1 =
      [Change.container_restarted_manual info.id nm (get_previous_started_time σ nm)
        info.started cst] := by
  unfold detect_manual_restarts
  dsimp only
  split
  · right; rfl
  · left; rfl

theorem statusEventsCore_shape (info : ContainerInfo) (nm pst cst : String) :
    ∃ e, statusEventsCore info nm pst cst = [e] ∧ eventName e = nm ∧
      isAutoRestart e = false ∧ isManualRestart e = false ∧ isStatusEvent e = true := by
  unfold statusEventsCore
  split
  · exact ⟨_, rfl, rfl, rfl, rfl, rfl⟩
  · split
    · exact ⟨_, rfl, rfl, rfl, rfl, rfl⟩
    · exact ⟨_, rfl, rfl, rfl, rfl, rfl⟩

theorem manualStep_events_shape (prevS : List (String × String)) (σ : TrackerState)
    (mv : Option (List Change)) (nm cst : String) (info : ContainerInfo) :
    (manualStep prevS σ mv nm cst info).1 = [] ∨
    (manualStep prevS σ mv nm cst info).1 =
      [Change.container_restarted_manual info.id nm (get_previous_started_time σ nm)
        info.started cst] := by
  unfold manualStep
  split
  · exact mr_events_shape σ nm info cst _
  · left; rfl

/-! Normalized equations for `processOne`, one per control-flow scenario. -/

/-- Scenario: the restart count increased — the automatic event is emitted,
the manual block still runs, the status check is skipped. -/
theorem processOne_eq_auto (prevS : List (String × String)) (σ : TrackerState)
    (mv : Option (List Change)) (nm cst : String)
    (hlt : get_previous_restart_count σ nm < (get_container_info σ nm).restart_count) :
    processOne prevS σ mv nm cst =
      (Except.ok (Change.container_restarted_auto (get_container_info σ nm).id nm
          (get_previous_restart_count σ nm) (get_container_info σ nm).restart_count cst ::
        (manualStep prevS (update_restart_count σ nm (get_container_info σ nm).restart_count)
          mv nm cst (get_container_info σ nm)).1),
       (manualStep prevS (update_restart_count σ nm (get_container_info σ nm).restart_count)
          mv nm cst (get_container_info σ nm)).2.1,
       (manualStep prevS (update_restart_count σ nm (get_container_info σ nm).restart_count)
          mv nm cst (get_container_info σ nm)).2.2) := by
  unfold processOne
  simp only [rc_pos σ nm _ cst hlt]
  simp

/-- Scenario: no restart-count increase and a truthy previous status — the
manual check runs on the unchanged state and the status check fires when the
manual list is empty and the statuses differ. -/
theorem processOne_eq_truthy (prevS : List (String × String)) (σ : TrackerState)
    (mv : Option (List Change)) (nm cst : String)
    (hlt : ¬ get_previous_restart_count σ nm < (get_container_info σ nm).restart_count)
    (htr : truthy (alookup prevS nm) = true) :
    processOne prevS σ mv nm cst =
      (Except.ok
        ((detect_manual_restarts σ nm (get_container_info σ nm) cst
            ((alookup prevS nm).getD "")).1 ++
          (if (detect_manual_restarts σ nm (get_container_info σ nm) cst
                ((alookup prevS nm).getD "")).1 = [] ∧
              (alookup prevS nm).getD "" ≠ cst then
            statusEventsCore (get_container_info σ nm) nm ((alookup prevS nm).getD "") cst
          else [])),
       (detect_manual_restarts σ nm (get_container_info σ nm) cst
          ((alookup prevS nm).getD "")).2,
       some (detect_manual_restarts σ nm (get_container_info σ nm) cst
          ((alookup prevS nm).getD "")).1) := by
  unfold processOne manualStep
  simp only [rc_neg σ nm _ cst hlt, htr, if_true]
  simp [htr]

/-- Scenario: no restart-count increase and a falsy previous status with the
manual-restart variable still unbound — the status-check line raises. -/
theorem processOne_eq_crash (prevS : List (String × String)) (σ : TrackerState)
    (nm cst : String)
    (hlt : ¬ get_previous_restart_count σ nm < (get_container_info σ nm).restart_count)
    (htr : truthy (alookup prevS nm) = false) :
    processOne prevS σ none nm cst = (Except.error PyErr.unboundLocal, σ, none) := by
  unfold processOne manualStep
  simp only [rc_neg σ nm _ cst hlt, htr]
  simp

/-- Scenario: no restart-count increase, falsy previous status, variable
already bound — nothing is emitted and the state is untouched. -/
theorem processOne_eq_bound (prevS : List (String × String)) (σ : TrackerState)
    (mc : List Change) (nm cst : String)
    (hlt : ¬ get_previous_restart_count σ nm < (get_container_info σ nm).restart_count)
    (htr : truthy (alookup prevS nm) = false) :
    processOne prevS σ (some mc) nm cst = (Except.ok [], σ, some mc) := by
  unfold processOne manualStep
  simp only [rc_neg σ nm _ cst hlt, htr]
  simp [htr]

/-- Every event emitted by the per-entity step carries that entity's name. -/
theorem processOne_names (prevS : List (String × String)) (σ : TrackerState)
    (mv : Option (List Change)) (nm cst : String) (evs : List Change)
    (h : (processOne prevS σ mv nm cst).1 = Except.ok evs) :
    ∀ e ∈ evs, eventName e = nm := by
  intro e he
  by_cases hlt : get_previous_restart_count σ nm < (get_container_info σ nm).restart_count
  · rw [processOne_eq_auto prevS σ mv nm cst hlt] at h
    dsimp only at h
    injection h with h
    subst h
    rcases List.mem_cons.mp he with rfl | he'
    · rfl
    · rcases manualStep_events_shape prevS
        (update_restart_count σ nm (get_container_info σ nm).restart_count) mv nm cst
        (get_container_info σ nm) with hs | hs
      · rw [hs] at he'
        cases he'
      · rw [hs] at he'
        rw [List.mem_singleton.mp he']
        rfl
  · by_cases htr : truthy (alookup prevS nm) = true
    · rw [processOne_eq_truthy prevS σ mv nm cst hlt htr] at h
      dsimp only at h
      injection h with h
      subst h
      rcases List.mem_append.mp he with he' | he'
      · rcases mr_events_shape σ nm (get_container_info σ nm) cst
          ((alookup prevS nm).getD "") with hs | hs
        · rw [hs] at he'
          cases he'
        · rw [hs] at he'
          rw [List.mem_singleton.mp he']
          rfl
      · obtain ⟨se, hse, hsen, _, _, _⟩ := statusEventsCore_shape (get_container_info σ nm)
          nm ((alookup prevS nm).getD "") cst
        by_cases hg : (detect_manual_restarts σ nm (get_container_info σ nm) cst
            ((alookup prevS nm).getD "")).1 = [] ∧ (alookup prevS nm).getD "" ≠ cst
        · rw [if_pos hg, hse] at he'
          rw [List.mem_singleton.mp he']
          exact hsen
        · rw [if_neg hg] at he'
          cases he'
    · rw [Bool.not_eq_true] at htr
      cases mv with
      | none =>
        rw [processOne_eq_crash prevS σ nm cst hlt htr] at h
        simp at h
      | some mc =>
        rw [processOne_eq_bound prevS σ mc nm cst hlt htr] at h
        dsimp only at h
        injection h with h
        subst h
        cases he

/-! Per-key getter preservation: one iteration of the main loop only touches
the tracking entries of the entity it processes. -/

theorem rc_getters_ne (σ : TrackerState) (nm : String) (info : ContainerInfo)
    (cst : String) {k : String} (h : k ≠ nm) :
    get_previous_restart_count (detect_restart_count_changes σ nm info cst).2 k =
      get_previous_restart_count σ k ∧
    get_previous_started_time (detect_restart_count_changes σ nm info cst).2 k =
      get_previous_started_time σ k := by
  unfold detect_restart_count_changes
  split
  · exact ⟨count_of_update_count_ne σ nm _ h, rfl⟩
  · exact ⟨rfl, rfl⟩

theorem mr_getters_ne (σ : TrackerState) (nm : String) (info : ContainerInfo)
    (cst pst : String) {k : String} (h : k ≠ nm) :
    get_previous_restart_count (detect_manual_restarts σ nm info cst pst).2 k =
      get_previous_restart_count σ k ∧
    get_previous_started_time (detect_manual_restarts σ nm info cst pst).2 k =
      get_previous_started_time σ k := by
  unfold detect_manual_restarts
  dsimp only
  split
  · exact ⟨rfl, started_of_update_started_ne σ nm _ h⟩
  · exact ⟨rfl, rfl⟩

theorem manualStep_state (prevS : List (String × String)) (σ : TrackerState)
    (mv : Option (List Change)) (nm cst : String) (info : ContainerInfo) :
    (manualStep prevS σ mv nm cst info).2.1 =
      if truthy (alookup prevS nm) then
        (detect_manual_restarts σ nm info cst ((alookup prevS nm).getD "")).2
      else σ := by
  unfold manualStep
  split <;> rfl

theorem manualStep_getters_ne (prevS : List (String × String)) (σ : TrackerState)
    (mv : Option (List Change)) (nm cst : String) (info : ContainerInfo) {k : String}
    (h : k ≠ nm) :
    get_previous_restart_count (manualStep prevS σ mv nm cst info).2.1 k =
      get_previous_restart_count σ k ∧
    get_previous_started_time (manualStep prevS σ mv nm cst info).2.1 k =
      get_previous_started_time σ k := by
  rw [manualStep_state]
  split
  · exact mr_getters_ne σ nm info cst _ h
  · exact ⟨rfl, rfl⟩

theorem processOne_getters_ne (prevS : List (String × String)) (σ : TrackerState)
    (mv : Option (List Change)) (nm cst : String) {k : String} (h : k ≠ nm) :
    get_previous_restart_count (processOne prevS σ mv nm cst).2.1 k =
      get_previous_restart_count σ k ∧
    get_previous_started_time (processOne prevS σ mv nm cst).2.1 k =
      get_previous_started_time σ k := by
  rw [processOne_state_eq]
  have h1 := rc_getters_ne σ nm (get_container_info σ nm) cst h
  have h2 := manualStep_getters_ne prevS
    (detect_restart_count_changes σ nm (get_container_info σ nm) cst).2 mv nm cst
    (get_container_info σ nm) h
  exact ⟨h2.1.trans h1.1, h2.2.trans h1.2⟩

/-- Every event returned by the main loop carries the name of some iterated
entity. -/
theorem detectEntities_names (prevS : List (String × String)) :
    ∀ (l : List (String × String)) (σ : TrackerState) (mv : Option (List Change))
      (evs : List Change) (σf : TrackerState),
    detectEntities prevS l σ mv = (Except.ok evs, σf) →
    ∀ e ∈ evs, eventName e ∈ l.map Prod.fst := by
  intro l
  induction l with
  | nil =>
    intro σ mv evs σf hde e he
    injection hde with h1 h2
    injection h1 with h1
    subst h1
    cases he
  | cons p rest ih =>
    intro σ mv evs σf hde e he
    obtain ⟨nm, cst⟩ := p
    rcases hpo : processOne prevS σ mv nm cst with ⟨res, σ', mv'⟩
    cases res with
    | error er =>
      simp only [detectEntities, hpo, Prod.mk.injEq] at hde
      exact absurd hde.1 (by simp)
    | ok evs1 =>
      rcases hre : detectEntities prevS rest σ' mv' with ⟨res2, σ''⟩
      cases res2 with
      | error er =>
        simp only [detectEntities, hpo, hre, Prod.mk.injEq] at hde
        exact absurd hde.1 (by simp)
      | ok more =>
        simp only [detectEntities, hpo, hre, Prod.mk.injEq, Except.ok.injEq] at hde
        rcases hde with ⟨rfl, rfl⟩
        simp only [List.map_cons]
        rcases List.mem_append.mp he with he' | he'
        · have hn := processOne_names prevS σ mv nm cst evs1 (by rw [hpo]) e he'
          rw [hn]
          exact List.mem_cons_self _ _
        · exact List.mem_cons_of_mem _ (ih σ' mv' more σ'' hre e he')

/-- The new-container pass only emits `container_added` events. -/
theorem detect_new_events (prevS : List (String × String)) :
    ∀ (l : List (String × String)) (σ : TrackerState),
    ∀ e ∈ (detect_new_containers prevS l σ).1,
      isAutoRestart e = false ∧ isManualRestart e = false ∧ isStatusEvent e = false := by
  intro l
  induction l with
  | nil => intro σ e he; cases he
  | cons p rest ih =>
    intro σ e he
    obtain ⟨nm, cst⟩ := p
    by_cases hh : (alookup prevS nm).isSome
    · rw [detect_new_containers, if_pos hh] at he
      exact ih σ e he
    · rw [detect_new_containers, if_neg hh] at he
      rcases List.mem_cons.mp he with rfl | he'
      · exact ⟨rfl, rfl, rfl⟩
      · exact ih _ e he'

/-- The removed-container pass only emits `container_removed` events. -/
theorem detect_removed_events (curS : List (String × String)) :
    ∀ (l : List (String × String)) (σ : TrackerState),
    ∀ e ∈ (detect_removed_containers curS l σ).1,
      isAutoRestart e = false ∧ isManualRestart e = false ∧ isStatusEvent e = false := by
  intro l
  induction l with
  | nil => intro σ e he; cases he
  | cons p rest ih =>
    intro σ e he
    obtain ⟨nm, pst⟩ := p
    by_cases hh : (alookup curS nm).isSome
    · rw [detect_removed_containers, if_pos hh] at he
      exact ih σ e he
    · rw [detect_removed_containers, if_neg hh] at he
      rcases List.mem_cons.mp he with rfl | he'
      · exact ⟨rfl, rfl, rfl⟩
      · exact ih _ e he'

/-! Counting helpers for events of a given name. -/

theorem countP_zero_of_names (nm : String) (evs : List Change) (f : Change → Bool)
    (hn : ∀ e ∈ evs, eventName e ≠ nm) :
    evs.countP (fun e => f e && (eventName e == nm)) = 0 := by
  apply List.countP_eq_zero.mpr
  intro e he hc
  rw [Bool.and_eq_true, beq_iff_eq] at hc
  exact hn e he hc.2

theorem countP_zero_of_flag (nm : String) (evs : List Change) (f : Change → Bool)
    (hn : ∀ e ∈ evs, f e = false) :
    evs.countP (fun e => f e && (eventName e == nm)) = 0 := by
  apply List.countP_eq_zero.mpr
  intro e he hc
  rw [Bool.and_eq_true] at hc
  rw [hn e he] at hc
  exact absurd hc.1 (by simp)

/-- The main loop, when it completes and the target entity `nm` occurs
exactly once with a restart-count increase, emits exactly one automatic
restart event and no status-transition event for `nm`. -/
theorem detectEntities_autoCount (prevS : List (String × String)) (nm : String) :
    ∀ (l : List (String × String)) (σ : TrackerState) (mv : Option (List Change))
      (evs : List Change) (σf : TrackerState),
    (l.map Prod.fst).Nodup →
    (alookup l nm).isSome →
    get_previous_restart_count σ nm < (get_container_info σ nm).restart_count →
    detectEntities prevS l σ mv = (Except.ok evs, σf) →
    evs.countP (fun e => isAutoRestart e && (eventName e == nm)) = 1 ∧
    evs.countP (fun e => isStatusEvent e && (eventName e == nm)) = 0 := by
  intro l
  induction l with
  | nil =>
    intro σ mv evs σf _ hsome _ _
    simp [alookup] at hsome
  | cons p rest ih =>
    intro σ mv evs σf hnd hsome hlt hde
    obtain ⟨m, cst⟩ := p
    by_cases hm : m = nm
    · subst hm
      have hE := processOne_eq_auto prevS σ mv m cst hlt
      rcases hre : detectEntities prevS rest
        (manualStep prevS (update_restart_count σ m (get_container_info σ m).restart_count)
          mv m cst (get_container_info σ m)).2.1
        (manualStep prevS (update_restart_count σ m (get_container_info σ m).restart_count)
          mv m cst (get_container_info σ m)).2.2 with ⟨res2, σ''⟩
      cases res2 with
      | error er =>
        simp only [detectEntities, hE, hre, Prod.mk.injEq] at hde
        exact absurd hde.1 (by simp)
      | ok more =>
        simp only [detectEntities, hE, hre, Prod.mk.injEq, Except.ok.injEq] at hde
        rcases hde with ⟨rfl, rfl⟩
        have hnotin : m ∉ rest.map Prod.fst := by
          simp only [List.map_cons, List.nodup_cons] at hnd
          exact hnd.1
        have hmore : ∀ e ∈ more, eventName e ≠ m := by
          intro e he hc
          exact hnotin (hc ▸ detectEntities_names prevS rest _ _ more σ'' hre e he)
        have hms := manualStep_events_shape prevS
          (update_restart_count σ m (get_container_info σ m).restart_count) mv m cst
          (get_container_info σ m)
        constructor
        · rw [List.cons_append, List.countP_cons_of_pos, List.countP_append]
          · rw [countP_zero_of_names m more _ hmore]
            rcases hms with hs | hs <;> rw [hs]
            · rfl
            · rw [List.countP_cons_of_neg]
              · rfl
              · simp [isAutoRestart]
          · simp [isAutoRestart, eventName]
        · rw [List.cons_append, List.countP_cons_of_neg, List.countP_append]
          · rw [countP_zero_of_names m more _ hmore]
            rcases hms with hs | hs <;> rw [hs]
            · rfl
            · rw [List.countP_cons_of_neg]
              · rfl
              · simp [isStatusEvent]
          · simp [isStatusEvent, eventName]
    · rcases hpo : processOne prevS σ mv m cst with ⟨res, σ', mv'⟩
      cases res with
      | error er =>
        simp only [detectEntities, hpo, Prod.mk.injEq] at hde
        exact absurd hde.1 (by simp)
      | ok evs1 =>
        rcases hre : detectEntities prevS rest σ' mv' with ⟨res2, σ''⟩
        cases res2 with
        | error er =>
          simp only [detectEntities, hpo, hre, Prod.mk.injEq] at hde
          exact absurd hde.1 (by simp)
        | ok more =>
          simp only [detectEntities, hpo, hre, Prod.mk.injEq, Except.ok.injEq] at hde
          rcases hde with ⟨rfl, rfl⟩
          have hnm : nm ≠ m := fun hc => hm hc.symm
          have hpres := processOne_getters_ne prevS σ mv m cst hnm
          rw [hpo] at hpres
          have hinfo : get_container_info σ' nm = get_container_info σ nm := by
            have := processOne_frame prevS σ mv m cst
            rw [hpo] at this
            exact get_info_congr this.2 nm
          have hsome' : (alookup rest nm).isSome := by
            simpa [alookup, hnm] using hsome
          have hlt' : get_previous_restart_count σ' nm <
              (get_container_info σ' nm).restart_count := by
            rw [hpres.1, hinfo]
            exact hlt
          have hih := ih σ' mv' more σ''
            (by simpa [List.map_cons, List.nodup_cons] using
              (List.nodup_cons.mp (by simpa using hnd)).2)
            hsome' hlt' hre
          have h1 : ∀ e ∈ evs1, eventName e ≠ nm := by
            intro e he hc
            exact hnm (hc ▸ (processOne_names prevS σ mv m cst evs1 (by rw [hpo]) e he).symm).symm
          rw [List.countP_append, List.countP_append,
            countP_zero_of_names nm evs1 _ h1, countP_zero_of_names nm evs1 _ h1]
          exact ⟨by rw [hih.1], by rw [hih.2]⟩

/-- C1 amended: on every run of `detect_changes` that completes without the
unbound-local error, an entity present in both snapshots whose restart count
exceeds the tracked previous count and whose status differs from the
previous status gets exactly one automatic `Restarted` event and no
`Stopped`/`Started`/`StatusChanged` event. -/
theorem C1_theorem (σ : TrackerState) (cur prev : List (String × String))
    (nm cst pst : String) (evs : List Change)
    (hnodup : (cur.map Prod.fst).Nodup)
    (hcur : alookup cur nm = some cst)
    (hprev : alookup prev nm = some pst)
    (hlt : get_previous_restart_count σ nm < (get_container_info σ nm).restart_count)
    (hdiff : cst ≠ pst)
    (hok : (detect_changes σ cur prev).1 = Except.ok evs) :
    evs.countP (fun e => isAutoRestart e && (eventName e == nm)) = 1 ∧
    evs.countP (fun e => isStatusEvent e && (eventName e == nm)) = 0 := by
  unfold detect_changes at hok
  rcases hde : detectEntities prev cur σ none with ⟨res, σ'⟩
  rw [hde] at hok
  cases res with
  | error er => exact absurd hok (by simp)
  | ok evs0 =>
    simp only [Except.ok.injEq] at hok
    subst hok
    have hmain := detectEntities_autoCount prev nm cur σ none evs0 σ' hnodup
      (by rw [hcur]; rfl) hlt hde
    have hnewA := countP_zero_of_flag nm (detect_new_containers prev cur σ').1
      isAutoRestart (fun e he => (detect_new_events prev cur σ' e he).1)
    have hnewS := countP_zero_of_flag nm (detect_new_containers prev cur σ').1
      isStatusEvent (fun e he => (detect_new_events prev cur σ' e he).2.2)
    have hremA := countP_zero_of_flag nm
      (detect_removed_containers cur prev (detect_new_containers prev cur σ').2).1
      isAutoRestart (fun e he => (detect_removed_events cur prev _ e he).1)
    have hremS := countP_zero_of_flag nm
      (detect_removed_containers cur prev (detect_new_containers prev cur σ').2).1
      isStatusEvent (fun e he => (detect_removed_events cur prev _ e he).2.2)
    constructor
    · rw [List.countP_append, List.countP_append, hmain.1, hnewA, hremA]
    · rw [List.countP_append, List.countP_append, hmain.2, hnewS, hremS]

/-- Witness for C1: one container `a`, restart count 0 → 1, status
`exited → running`; the run completes and emits exactly the automatic
restart event. -/
theorem C1_witness :
    (detect_changes c1wTracker [("a", "running")] [("a", "exited")]).1 =
      Except.ok [Change.container_restarted_auto "i" "a" 0 1 "running"] ∧
    ([Change.container_restarted_auto "i" "a" 0 1 "running"].countP
      (fun e => isAutoRestart e && (eventName e == "a")) = 1 ∧
     [Change.container_restarted_auto "i" "a" 0 1 "running"].countP
      (fun e => isStatusEvent e && (eventName e == "a")) = 0) :=
  ⟨rfl, C1_theorem c1wTracker [("a", "running")] [("a", "exited")] "a" "running" "exited"
    [Change.container_restarted_auto "i" "a" 0 1 "running"]
    (by decide) rfl rfl (by decide) (by decide) rfl⟩

/-! Inversion lemmas: a manual-restart event can only arise from the
manual-restart check with all of its guard conditions true. -/

theorem manualStep_events_truthy (prevS : List (String × String)) (σ : TrackerState)
    (mv : Option (List Change)) (nm cst : String) (info : ContainerInfo)
    (htr : truthy (alookup prevS nm) = true) :
    (manualStep prevS σ mv nm cst info).1 =
      (detect_manual_restarts σ nm info cst ((alookup prevS nm).getD "")).1 := by
  simp [manualStep, htr]

theorem manualStep_events_falsy (prevS : List (String × String)) (σ : TrackerState)
    (mv : Option (List Change)) (nm cst : String) (info : ContainerInfo)
    (htr : truthy (alookup prevS nm) = false) :
    (manualStep prevS σ mv nm cst info).1 = [] := by
  simp [manualStep, htr]

theorem mr_manual_mem (σ : TrackerState) (nm : String) (info : ContainerInfo)
    (cst pst : String) {cid n ps cs st : String}
    (h : Change.container_restarted_manual cid n ps cs st ∈
      (detect_manual_restarts σ nm info cst pst).1) :
    cid = info.id ∧ n = nm ∧ ps = get_previous_started_time σ nm ∧
    cs = info.started ∧ st = cst ∧ cst = "running" ∧
    get_previous_started_time σ nm ≠ "" ∧
    info.started ≠ get_previous_started_time σ nm ∧ pst ∈ manualPrevStatuses := by
  unfold detect_manual_restarts at h
  dsimp only at h
  split at h
  · rename_i hc
    have he := List.mem_singleton.mp h
    simp only [Change.container_restarted_manual.injEq] at he
    obtain ⟨h1, h2, h3, h4, h5⟩ := he
    exact ⟨h1, h2, h3, h4, h5, hc.1, hc.2.1, hc.2.2.1, hc.2.2.2⟩
  · cases h

theorem processOne_manual_inv (prevS : List (String × String)) (σ : TrackerState)
    (mv : Option (List Change)) (nm cst : String) (evs : List Change)
    {cid n ps cs st : String}
    (h : (processOne prevS σ mv nm cst).1 = Except.ok evs)
    (hm : Change.container_restarted_manual cid n ps cs st ∈ evs) :
    n = nm ∧ st = cst ∧ cid = (get_container_info σ nm).id ∧
    ps = get_previous_started_time σ nm ∧ ps ≠ "" ∧
    cs = (get_container_info σ nm).started ∧ cs ≠ ps ∧
    cst = "running" ∧ truthy (alookup prevS nm) = true ∧
    (alookup prevS nm).getD "" ∈ manualPrevStatuses := by
  by_cases hlt : get_previous_restart_count σ nm < (get_container_info σ nm).restart_count
  · rw [processOne_eq_auto prevS σ mv nm cst hlt] at h
    dsimp only at h
    injection h with h
    subst h
    rcases List.mem_cons.mp hm with he | he
    · cases he
    · by_cases htr : truthy (alookup prevS nm) = true
      · rw [manualStep_events_truthy prevS _ mv nm cst _ htr] at he
        obtain ⟨h1, h2, h3, h4, h5, h6, h7, h8, h9⟩ := mr_manual_mem _ nm _ cst _ he
        rw [started_of_update_count σ nm _ nm] at h3 h7 h8
        exact ⟨h2, h5, h1, h3, h3 ▸ h7, h4, by rw [h4, h3]; exact h8, h6, htr, h9⟩
      · rw [manualStep_events_falsy prevS _ mv nm cst _ (by simpa using htr)] at he
        cases he
  · by_cases htr : truthy (alookup prevS nm) = true
    · rw [processOne_eq_truthy prevS σ mv nm cst hlt htr] at h
      dsimp only at h
      injection h with h
      subst h
      rcases List.mem_append.mp hm with he | he
      · obtain ⟨h1, h2, h3, h4, h5, h6, h7, h8, h9⟩ := mr_manual_mem σ nm _ cst _ he
        exact ⟨h2, h5, h1, h3, h3 ▸ h7, h4, by rw [h4, h3]; exact h8, h6, htr, h9⟩
      · obtain ⟨se, hse, _, _, hsm, _⟩ := statusEventsCore_shape (get_container_info σ nm)
          nm ((alookup prevS nm).getD "") cst
        split at he
        · rw [hse] at he
          rw [← List.mem_singleton.mp he] at hsm
          simp [isManualRestart] at hsm
        · cases he
    · rw [Bool.not_eq_true] at htr
      cases mv with
      | none =>
        rw [processOne_eq_crash prevS σ nm cst hlt htr] at h
        simp at h
      | some mc =>
        rw [processOne_eq_bound prevS σ mc nm cst hlt htr] at h
        dsimp only at h
        injection h with h
        subst h
        cases hm

/-- A manual-restart event in the output of the main loop pins down the
iterated entity, its fields and all the guard conditions of the
manual-restart check, evaluated against the state at the start of the run. -/
theorem detectEntities_manual_inv (prevS : List (String × String)) (nm : String)
    (cid ps cs st : String) :
    ∀ (l : List (String × String)) (σ : TrackerState) (mv : Option (List Change))
      (evs : List Change) (σf : TrackerState),
    (l.map Prod.fst).Nodup →
    detectEntities prevS l σ mv = (Except.ok evs, σf) →
    Change.container_restarted_manual cid nm ps cs st ∈ evs →
    alookup l nm = some st ∧ st = "running" ∧
    cid = (get_container_info σ nm).id ∧
    ps = get_previous_started_time σ nm ∧ ps ≠ "" ∧
    cs = (get_container_info σ nm).started ∧ cs ≠ ps ∧
    truthy (alookup prevS nm) = true ∧
    (alookup prevS nm).getD "" ∈ manualPrevStatuses := by
  intro l
  induction l with
  | nil =>
    intro σ mv evs σf _ hde hm
    injection hde with h1 h2
    injection h1 with h1
    subst h1
    cases hm
  | cons p rest ih =>
    intro σ mv evs σf hnd hde hm
    obtain ⟨m, cst⟩ := p
    rcases hpo : processOne prevS σ mv m cst with ⟨res, σ', mv'⟩
    cases res with
    | error er =>
      simp only [detectEntities, hpo, Prod.mk.injEq] at hde
      exact absurd hde.1 (by simp)
    | ok evs1 =>
      rcases hre : detectEntities prevS rest σ' mv' with ⟨res2, σ''⟩
      cases res2 with
      | error er =>
        simp only [detectEntities, hpo, hre, Prod.mk.injEq] at hde
        exact absurd hde.1 (by simp)
      | ok more =>
        simp only [detectEntities, hpo, hre, Prod.mk.injEq, Except.ok.injEq] at hde
        rcases hde with ⟨rfl, rfl⟩
        rcases List.mem_append.mp hm with he | he
        · have hname := processOne_names prevS σ mv m cst evs1 (by rw [hpo]) _ he
          have hmn : nm = m := hname
          subst hmn
          obtain ⟨_, h2, h3, h4, h5, h6, h7, h8, h9, h10⟩ :=
            processOne_manual_inv prevS σ mv nm cst evs1 (by rw [hpo]) he
          refine ⟨?_, h2.trans h8, h3, h4, h5, h6, h7, h9, h10⟩
          simp [alookup, h2]
        · have hname := detectEntities_names prevS rest σ' mv' more σ'' hre _ he
          have hmem : nm ∈ rest.map Prod.fst := hname
          have hmn : m ≠ nm := by
            simp only [List.map_cons, List.nodup_cons] at hnd
            intro hc
            exact hnd.1 (hc ▸ hmem)
          have hih := ih σ' mv' more σ''
            (by simpa [List.map_cons, List.nodup_cons] using
              (List.nodup_cons.mp (by simpa using hnd)).2) hre he
          have hpres := processOne_getters_ne prevS σ mv m cst (fun hc => hmn hc.symm)
          rw [hpo] at hpres
          have hinfo : get_container_info σ' nm = get_container_info σ nm := by
            have := processOne_frame prevS σ mv m cst
            rw [hpo] at this
            exact get_info_congr this.2 nm
          obtain ⟨g1, g2, g3, g4, g5, g6, g7, g8, g9⟩ := hih
          refine ⟨?_, g2, g3.trans (by rw [hinfo]), g4.trans hpres.2, g5,
            g6.trans (by rw [hinfo]), g7, g8, g9⟩
          rw [alookup_cons]
          rw [if_neg (fun hc => hmn hc.symm)]
          exact g1

/-- C2 amended: a manual `Restarted` event for an entity is emitted exactly
under conditions (b)–(f) of the claim — previous status present, non-empty
and in {stopped, exited, created, restarting}, current status `running`, a
non-empty tracked start timestamp that differs from the current one — with
no regard to whether an automatic restart fired in the same cycle. -/
theorem C2_theorem (σ : TrackerState) (cur prev : List (String × String))
    (cid nm ps cs st : String) (evs : List Change)
    (hnodup : (cur.map Prod.fst).Nodup)
    (hok : (detect_changes σ cur prev).1 = Except.ok evs)
    (hm : Change.container_restarted_manual cid nm ps cs st ∈ evs) :
    alookup cur nm = some st ∧ st = "running" ∧
    cid = (get_container_info σ nm).id ∧
    ps = get_previous_started_time σ nm ∧ ps ≠ "" ∧
    cs = (get_container_info σ nm).started ∧ cs ≠ ps ∧
    truthy (alookup prev nm) = true ∧
    (alookup prev nm).getD "" ∈ manualPrevStatuses := by
  unfold detect_changes at hok
  rcases hde : detectEntities prev cur σ none with ⟨res, σ'⟩
  rw [hde] at hok
  cases res with
  | error er => exact absurd hok (by simp)
  | ok evs0 =>
    simp only [Except.ok.injEq] at hok
    subst hok
    rcases List.mem_append.mp hm with hm' | hm'
    · rcases List.mem_append.mp hm' with hm'' | hm''
      · exact detectEntities_manual_inv prev nm cid ps cs st cur σ none evs0 σ'
          hnodup hde hm''
      · have := (detect_new_events prev cur σ' _ hm'').2.1
        simp [isManualRestart] at this
    · have := (detect_removed_events cur prev _ _ hm').2.1
      simp [isManualRestart] at this

/-- Witness for C2: a pure manual-restart cycle; the theorem recovers all
guard conditions from the emitted event. -/
theorem C2_witness :
    alookup [("c", "running")] "c" = some "running" ∧ ("running" : String) = "running" ∧
    ("i" : String) = (get_container_info c2wTracker "c").id ∧
    ("t1" : String) = get_previous_started_time c2wTracker "c" ∧ ("t1" : String) ≠ "" ∧
    ("t2" : String) = (get_container_info c2wTracker "c").started ∧
    ("t2" : String) ≠ "t1" ∧
    truthy (alookup [("c", "exited")] "c") = true ∧
    (alookup [("c", "exited")] "c").getD "" ∈ manualPrevStatuses :=
  C2_theorem c2wTracker [("c", "running")] [("c", "exited")] "i" "c" "t1" "t2" "running"
    [Change.container_restarted_manual "i" "c" "t1" "t2" "running"]
    (by decide) rfl (by decide)

/-! Machinery for C6: a cycle in which neither restart check fires for any
entity is replayed identically. -/

/-- A per-entity step with truthy previous status, no restart-count increase
and a failing manual-restart guard emits exactly the status classification
and only refreshes the started-time tracking. -/
theorem processOne_noRestart (prevS : List (String × String)) (σ : TrackerState)
    (mv : Option (List Change)) (nm cst : String)
    (hle : ¬ get_previous_restart_count σ nm < (get_container_info σ nm).restart_count)
    (htr : truthy (alookup prevS nm) = true)
    (hman : ¬(cst = "running" ∧ get_previous_started_time σ nm ≠ "" ∧
      (get_container_info σ nm).started ≠ get_previous_started_time σ nm ∧
      (alookup prevS nm).getD "" ∈ manualPrevStatuses)) :
    processOne prevS σ mv nm cst =
      (Except.ok (quietStatusEvents (get_container_info σ nm) nm
        ((alookup prevS nm).getD "") cst),
       (if (get_container_info σ nm).started ≠ "" then
          update_started_time σ nm (get_container_info σ nm).started else σ),
       some []) := by
  rw [processOne_eq_truthy prevS σ mv nm cst hle htr]
  rw [mr_neg σ nm _ cst _ hman]
  simp [quietStatusEvents]

theorem remove_getters_ne (σ : TrackerState) (nm : String) {k : String} (h : k ≠ nm) :
    get_previous_restart_count (remove_container_tracking σ nm) k =
      get_previous_restart_count σ k ∧
    get_previous_started_time (remove_container_tracking σ nm) k =
      get_previous_started_time σ k := by
  unfold remove_container_tracking get_previous_restart_count get_previous_started_time
  exact ⟨by rw [alookup_delKey_of_ne _ h], by rw [alookup_delKey_of_ne _ h]⟩

/-- The removed-container pass never touches entities still present in the
current snapshot. -/
theorem detect_removed_getters (curS : List (String × String)) :
    ∀ (l : List (String × String)) (σ : TrackerState),
    (detect_removed_containers curS l σ).2.previous_states = σ.previous_states ∧
    (detect_removed_containers curS l σ).2.container_info = σ.container_info ∧
    ∀ k, (alookup curS k).isSome →
      get_previous_restart_count (detect_removed_containers curS l σ).2 k =
        get_previous_restart_count σ k ∧
      get_previous_started_time (detect_removed_containers curS l σ).2 k =
        get_previous_started_time σ k := by
  intro l
  induction l with
  | nil => intro σ; exact ⟨rfl, rfl, fun _ _ => ⟨rfl, rfl⟩⟩
  | cons p rest ih =>
    intro σ
    obtain ⟨nm, pst⟩ := p
    by_cases hh : (alookup curS nm).isSome
    · simpa [detect_removed_containers, hh] using ih σ
    · have hrec := ih (remove_container_tracking σ nm)
      simp only [detect_removed_containers, hh, if_false, Bool.false_eq_true]
      refine ⟨hrec.1, hrec.2.1, fun k hk => ?_⟩
      have hkn : k ≠ nm := fun hc => hh (hc ▸ hk)
      have hr := remove_getters_ne σ nm hkn
      exact ⟨((hrec.2.2 k hk).1).trans hr.1, ((hrec.2.2 k hk).2).trans hr.2⟩

/-- The events of the removed-container pass depend only on the two snapshot
maps, not on the tracker state. -/
theorem detect_removed_events_indep (curS : List (String × String)) :
    ∀ (l : List (String × String)) (σ τ : TrackerState),
    (detect_removed_containers curS l σ).1 = (detect_removed_containers curS l τ).1 := by
  intro l
  induction l with
  | nil => intro σ τ; rfl
  | cons p rest ih =>
    intro σ τ
    obtain ⟨nm, pst⟩ := p
    by_cases hh : (alookup curS nm).isSome
    · simpa [detect_removed_containers, hh] using ih σ τ
    · simp only [detect_removed_containers, hh, if_false, Bool.false_eq_true,
        List.cons.injEq, true_and]
      exact ih _ _

/-- Main loop of a no-restart cycle: the output is the per-entity status
classification (a pure function of the snapshots and the raw container info)
and the state change is exactly the started-time refresh. -/
theorem detectEntities_noRestart (prevS : List (String × String)) :
    ∀ (l : List (String × String)) (σ : TrackerState) (mv : Option (List Change)),
    (l.map Prod.fst).Nodup →
    (∀ p ∈ l, truthy (alookup prevS p.1) = true) →
    (∀ p ∈ l, ¬ get_previous_restart_count σ p.1 <
      (get_container_info σ p.1).restart_count) →
    (∀ p ∈ l, ¬(p.2 = "running" ∧ get_previous_started_time σ p.1 ≠ "" ∧
      (get_container_info σ p.1).started ≠ get_previous_started_time σ p.1 ∧
      (alookup prevS p.1).getD "" ∈ manualPrevStatuses)) →
    ∃ σ', detectEntities prevS l σ mv =
      (Except.ok (l.flatMap fun p =>
        quietStatusEvents (get_container_info σ p.1) p.1
          ((alookup prevS p.1).getD "") p.2), σ') ∧
      σ'.container_info = σ.container_info ∧
      σ'.previous_states = σ.previous_states ∧
      (∀ k, get_previous_restart_count σ' k = get_previous_restart_count σ k) ∧
      (∀ k, k ∉ l.map Prod.fst →
        get_previous_started_time σ' k = get_previous_started_time σ k) ∧
      (∀ p ∈ l, get_previous_started_time σ' p.1 =
        (if (get_container_info σ p.1).started ≠ "" then
          (get_container_info σ p.1).started
         else get_previous_started_time σ p.1)) := by
  intro l
  induction l with
  | nil =>
    intro σ mv _ _ _ _
    exact ⟨σ, rfl, rfl, rfl, fun _ => rfl, fun _ _ => rfl, fun p hp => absurd hp
      (List.not_mem_nil p)⟩
  | cons p rest ih =>
    intro σ mv hnd htr hle hman
    obtain ⟨nm, cst⟩ := p
    have hm : (nm, cst) ∈ (nm, cst) :: rest := List.mem_cons_self _ _
    have hq := processOne_noRestart prevS σ mv nm cst (hle _ hm) (htr _ hm) (hman _ hm)
    set σ2 := (if (get_container_info σ nm).started ≠ "" then
      update_started_time σ nm (get_container_info σ nm).started else σ) with hσ2
    have hci : σ2.container_info = σ.container_info := by
      rw [hσ2]; split <;> rfl
    have hps : σ2.previous_states = σ.previous_states := by
      rw [hσ2]; split <;> rfl
    have hcnt2 : ∀ k, get_previous_restart_count σ2 k = get_previous_restart_count σ k := by
      intro k
      rw [hσ2]; split <;> rfl
    have hnotin : nm ∉ rest.map Prod.fst := by
      simp only [List.map_cons, List.nodup_cons] at hnd
      exact hnd.1
    have hst2ne : ∀ k, k ≠ nm → get_previous_started_time σ2 k =
        get_previous_started_time σ k := by
      intro k hk
      rw [hσ2]
      split
      · exact started_of_update_started_ne σ nm _ hk
      · rfl
    have hst2nm : get_previous_started_time σ2 nm =
        (if (get_container_info σ nm).started ≠ "" then (get_container_info σ nm).started
         else get_previous_started_time σ nm) := by
      rw [hσ2]
      split
      · rw [started_of_update_started_self]
      · rfl
    have hrestne : ∀ p ∈ rest, (p : String × String).1 ≠ nm := by
      intro q hq' hc
      exact hnotin (hc ▸ List.mem_map_of_mem Prod.fst hq')
    have htail := ih σ2 (some [])
      (by simpa [List.map_cons, List.nodup_cons] using
        (List.nodup_cons.mp (by simpa using hnd)).2)
      (fun q hq' => htr q (List.mem_cons_of_mem _ hq'))
      (fun q hq' => by
        rw [get_info_congr hci, hcnt2]
        exact hle q (List.mem_cons_of_mem _ hq'))
      (fun q hq' => by
        rw [get_info_congr hci, hst2ne q.1 (hrestne q hq')]
        exact hman q (List.mem_cons_of_mem _ hq'))
    obtain ⟨σ', hde, hci', hps', hcnt', hstne', hst'⟩ := htail
    refine ⟨σ', ?_, hci'.trans hci, hps'.trans hps,
      fun k => (hcnt' k).trans (hcnt2 k), ?_, ?_⟩
    · have hflat : (rest.flatMap fun q =>
          quietStatusEvents (get_container_info σ2 q.1) q.1
            ((alookup prevS q.1).getD "") q.2) =
        (rest.flatMap fun q =>
          quietStatusEvents (get_container_info σ q.1) q.1
            ((alookup prevS q.1).getD "") q.2) :=
        List.flatMap_congr (fun q _ => by rw [get_info_congr hci])
      simp only [detectEntities, hq, hde, hflat, List.flatMap_cons]
    · intro k hk
      simp only [List.map_cons, List.mem_cons] at hk
      push_neg at hk
      exact (hstne' k (hk.2)).trans (hst2ne k hk.1)
    · intro q hq'
      rcases List.mem_cons.mp hq' with rfl | hq''
      · exact (hstne' nm (by simpa using hnotin)).trans hst2nm
      · rw [hst' q hq'', get_info_congr hci, hst2ne q.1 (hrestne q hq'')]

/-- C6 amended: running `detect_changes` twice with identical inputs yields
identical outputs provided no restart detection and no `Added` seeding fires
in the first run: every current entity has a non-empty tracked previous
status, no current restart count exceeds its tracked count, and no entity
satisfies the manual-restart guard.  (A cycle that emits a `Restarted` or
`Added` event updates the restart/start tracking and is not replayed
identically, as the counterexample shows.) -/
theorem C6_theorem (σ : TrackerState) (cur prev : List (String × String))
    (hnodup : (cur.map Prod.fst).Nodup)
    (hprev : ∀ p ∈ cur, ∃ s, alookup prev p.1 = some s ∧ s ≠ "")
    (hcnt : ∀ p ∈ cur,
      (get_container_info σ p.1).restart_count ≤ get_previous_restart_count σ p.1)
    (hman : ∀ p ∈ cur, ¬(p.2 = "running" ∧ get_previous_started_time σ p.1 ≠ "" ∧
      (get_container_info σ p.1).started ≠ get_previous_started_time σ p.1 ∧
      (alookup prev p.1).getD "" ∈ manualPrevStatuses)) :
    (detect_changes (detect_changes σ cur prev).2 cur prev).1 =
      (detect_changes σ cur prev).1 := by
  have htr : ∀ p ∈ cur, truthy (alookup prev p.1) = true := by
    intro p hp
    obtain ⟨s, hs, hsne⟩ := hprev p hp
    rw [hs]
    simp [truthy, hsne]
  have hle : ∀ p ∈ cur, ¬ get_previous_restart_count σ p.1 <
      (get_container_info σ p.1).restart_count :=
    fun p hp => not_lt.mpr (hcnt p hp)
  have hsome : ∀ p ∈ cur, (alookup prev p.1).isSome := by
    intro p hp
    obtain ⟨s, hs, _⟩ := hprev p hp
    rw [hs]
    rfl
  obtain ⟨σ', h1, hci1, hps1, hcnt1, hstne1, hst1⟩ :=
    detectEntities_noRestart prev cur σ none hnodup htr hle hman
  have hnew1 : detect_new_containers prev cur σ' = ([], σ') :=
    detect_new_none prev cur σ' hsome
  have hrun1 : detect_changes σ cur prev =
      (Except.ok ((cur.flatMap fun p =>
        quietStatusEvents (get_container_info σ p.1) p.1
          ((alookup prev p.1).getD "") p.2) ++ [] ++
        (detect_removed_containers cur prev σ').1),
       (detect_removed_containers cur prev σ').2) := by
    unfold detect_changes
    rw [h1]
    simp only [hnew1]
  set τ0 := (detect_removed_containers cur prev σ').2 with hτ0
  have hrg := detect_removed_getters cur prev σ'
  have hciτ : τ0.container_info = σ.container_info := hrg.2.1.trans hci1
  have hcurSome : ∀ p ∈ cur, (alookup cur p.1).isSome := by
    intro p hp
    exact alookup_isSome_of_mem (by simpa using hp)
  have hcntτ : ∀ p ∈ cur, get_previous_restart_count τ0 p.1 =
      get_previous_restart_count σ p.1 := by
    intro p hp
    exact ((hrg.2.2 p.1 (hcurSome p hp)).1).trans (hcnt1 p.1)
  have hstτ : ∀ p ∈ cur, get_previous_started_time τ0 p.1 =
      (if (get_container_info σ p.1).started ≠ "" then (get_container_info σ p.1).started
       else get_previous_started_time σ p.1) := by
    intro p hp
    exact ((hrg.2.2 p.1 (hcurSome p hp)).2).trans (hst1 p hp)
  have hle2 : ∀ p ∈ cur, ¬ get_previous_restart_count τ0 p.1 <
      (get_container_info τ0 p.1).restart_count := by
    intro p hp
    rw [get_info_congr hciτ, hcntτ p hp]
    exact hle p hp
  have hman2 : ∀ p ∈ cur, ¬(p.2 = "running" ∧ get_previous_started_time τ0 p.1 ≠ "" ∧
      (get_container_info τ0 p.1).started ≠ get_previous_started_time τ0 p.1 ∧
      (alookup prev p.1).getD "" ∈ manualPrevStatuses) := by
    intro p hp
    rw [get_info_congr hciτ, hstτ p hp]
    by_cases hempty : (get_container_info σ p.1).started = ""
    · rw [if_neg (by simpa using hempty)]
      exact hman p hp
    · rw [if_pos hempty]
      intro hc
      exact hc.2.2.1 rfl
  obtain ⟨σ2', h2, hci2, hps2, hcnt2, hstne2, hst2⟩ :=
    detectEntities_noRestart prev cur τ0 none hnodup htr hle2 hman2
  have hnew2 : detect_new_containers prev cur σ2' = ([], σ2') :=
    detect_new_none prev cur σ2' hsome
  have hflat : (cur.flatMap fun p =>
      quietStatusEvents (get_container_info τ0 p.1) p.1
        ((alookup prev p.1).getD "") p.2) =
      (cur.flatMap fun p =>
        quietStatusEvents (get_container_info σ p.1) p.1
          ((alookup prev p.1).getD "") p.2) :=
    List.flatMap_congr (fun q _ => by rw [get_info_congr hciτ])
  have hrun2 : detect_changes τ0 cur prev =
      (Except.ok ((cur.flatMap fun p =>
        quietStatusEvents (get_container_info σ p.1) p.1
          ((alookup prev p.1).getD "") p.2) ++ [] ++
        (detect_removed_containers cur prev σ2').1),
       (detect_removed_containers cur prev σ2').2) := by
    unfold detect_changes
    rw [h2]
    simp only [hnew2, hflat]
  rw [hrun1]
  dsimp only
  rw [hrun2]
  dsimp only
  rw [detect_removed_events_indep cur prev σ2' σ']

/-- Witness for C6: a pure status-change cycle (`running → paused`, no
restart signal) is replayed identically on a second run. -/
theorem C6_witness :
    (detect_changes (detect_changes c6wTracker [("a", "paused")] [("a", "running")]).2
      [("a", "paused")] [("a", "running")]).1 =
      (detect_changes c6wTracker [("a", "paused")] [("a", "running")]).1 :=
  C6_theorem c6wTracker [("a", "paused")] [("a", "running")]
    (by decide)
    (fun p hp => by
      rw [List.mem_singleton.mp hp]
      exact ⟨"running", rfl, by decide⟩)
    (fun p hp => by
      rw [List.mem_singleton.mp hp]
      decide)
    (fun p hp => by
      rw [List.mem_singleton.mp hp]
      decide)

end DockerMonitor
